import Mathlib

/-!
Verification of the GroceryList application's preference-resolution and
brand-grouping engine (src/app.py), shallowly embedded in Lean 4.

Python dicts are modelled as association lists with unique keys kept in
insertion order (`dlookup` / `dinsert`), Python sets of strings as lists
used up to membership, and JSON payloads as the inductive `JVal`.
-/

set_option maxRecDepth 40000

namespace Grocery

/-- Dictionary lookup on an association list: first binding of the key wins
(Python dicts have unique keys). -/
def dlookup {α : Type} : List (String × α) → String → Option α
  | [], _ => none
  | (k', v') :: rest, k => if k' = k then some v' else dlookup rest k

/-- Dictionary assignment d[k] = v: update the binding in place, or append a
new binding at the end (Python dicts preserve insertion order). -/
def dinsert {α : Type} : List (String × α) → String → α → List (String × α)
  | [], k, v => [(k, v)]
  | (k', v') :: rest, k, v =>
    if k' = k then (k, v) :: rest else (k', v') :: dinsert rest k v

/-- Deletion del d[k] of a present key: drop the first binding of the key. -/
def dremove {α : Type} (d : List (String × α)) (k : String) : List (String × α) :=
  d.eraseP (fun p => p.1 == k)
/-- Source constant BRAND_GROUPS: groups of items that share custom brands. -/
def BRAND_GROUPS : List (String × List String) := [
  ("cheese", ["Cheddar Cheese", "Swiss Cheese", "Mozzarella Cheese", "Parmesan Cheese", "Provolone Cheese", "American Cheese", "Pepper Jack Cheese", "Feta Cheese", "Blue Cheese", "Goat Cheese", "Ricotta Cheese", "Brie", "Shredded Mexican Blend", "Cottage Cheese"]),
  ("milk", ["Whole Milk", "2% Milk", "Skim Milk"]),
  ("cream", ["Half & Half", "Heavy Cream"]),
  ("butter", ["Butter (Salted)", "Butter (Unsalted)"]),
  ("yogurt", ["Yogurt (Plain)", "Yogurt (Greek)"]),
  ("milk_alt", ["Almond Milk", "Oat Milk"]),
  ("canned_tomatoes", ["Diced Tomatoes", "Crushed Tomatoes", "Tomato Paste", "Tomato Sauce"]),
  ("canned_beans", ["Black Beans", "Kidney Beans", "Pinto Beans"]),
  ("broth", ["Chicken Broth", "Beef Broth", "Vegetable Broth"]),
  ("coffee", ["Coffee (Ground)", "Coffee (Whole Bean)"]),
  ("nut_butter", ["Peanut Butter", "Almond Butter"])
]

/-- Source constant MASTER_LIST: category → (item → default unit). -/
def MASTER_LIST : List (String × List (String × String)) := [
  ("Produce - Fruits", [
    ("Apples", "lb"),
    ("Avocados", "each"),
    ("Bananas", "bunch"),
    ("Blackberries", "pint"),
    ("Blueberries", "pint"),
    ("Cantaloupe", "each"),
    ("Cherries", "lb"),
    ("Grapefruit", "each"),
    ("Grapes", "lb"),
    ("Honeydew", "each"),
    ("Kiwi", "each"),
    ("Lemons", "each"),
    ("Limes", "each"),
    ("Mango", "each"),
    ("Oranges", "lb"),
    ("Peaches", "lb"),
    ("Pears", "lb"),
    ("Pineapple", "each"),
    ("Plums", "lb"),
    ("Raspberries", "pint"),
    ("Strawberries", "lb"),
    ("Watermelon", "each")
  ]),
  ("Produce - Vegetables", [
    ("Acorn Squash", "each"),
    ("Arugula", "bag"),
    ("Asparagus", "bunch"),
    ("Beets", "lb"),
    ("Bell Peppers (Green)", "each"),
    ("Bell Peppers (Red)", "each"),
    ("Bell Peppers (Yellow)", "each"),
    ("Broccoli", "lb"),
    ("Brussels Sprouts", "lb"),
    ("Butternut Squash", "each"),
    ("Cabbage (Green)", "head"),
    ("Cabbage (Red)", "head"),
    ("Carrots", "lb"),
    ("Cauliflower", "head"),
    ("Celery", "bunch"),
    ("Cherry Tomatoes", "pint"),
    ("Corn on the Cob", "each"),
    ("Cucumbers", "each"),
    ("Eggplant", "each"),
    ("Garlic", "head"),
    ("Grape Tomatoes", "pint"),
    ("Green Beans", "lb"),
    ("Jalape√±os", "each"),
    ("Kale", "bunch"),
    ("Lettuce (Iceberg)", "head"),
    ("Lettuce (Romaine)", "head"),
    ("Mixed Greens", "bag"),
    ("Mushrooms (Cremini)", "oz"),
    ("Mushrooms (Portobello)", "each"),
    ("Mushrooms (White)", "oz"),
    ("Onions (Red)", "each"),
    ("Onions (White)", "each"),
    ("Onions (Yellow)", "each"),
    ("Parsnips", "lb"),
    ("Potatoes (Red)", "lb"),
    ("Potatoes (Russet)", "lb"),
    ("Potatoes (Yukon Gold)", "lb"),
    ("Radishes", "bunch"),
    ("Serrano Peppers", "each"),
    ("Snap Peas", "lb"),
    ("Spaghetti Squash", "each"),
    ("Spinach", "bag"),
    ("Sweet Potatoes", "lb"),
    ("Tomatoes", "lb"),
    ("Turnips", "lb"),
    ("Yellow Squash", "each"),
    ("Zucchini", "each")
  ]),
  ("Produce - Herbs", [
    ("Basil (Fresh)", "bunch"),
    ("Chives", "bunch"),
    ("Cilantro", "bunch"),
    ("Dill", "bunch"),
    ("Ginger Root", "each"),
    ("Green Onions/Scallions", "bunch"),
    ("Mint", "bunch"),
    ("Parsley (Curly)", "bunch"),
    ("Parsley (Flat)", "bunch"),
    ("Rosemary", "bunch"),
    ("Sage", "bunch"),
    ("Thyme", "bunch")
  ]),
  ("Dairy", [
    ("2% Milk", "half gal"),
    ("American Cheese", "lb"),
    ("Blue Cheese", "oz"),
    ("Brie", "each"),
    ("Butter (Salted)", "lb"),
    ("Butter (Unsalted)", "lb"),
    ("Cheddar Cheese", "lb"),
    ("Cottage Cheese", "oz"),
    ("Cream Cheese", "oz"),
    ("Eggs (Large)", "dozen"),
    ("Feta Cheese", "oz"),
    ("Goat Cheese", "oz"),
    ("Half & Half", "pint"),
    ("Heavy Cream", "pint"),
    ("Mozzarella Cheese", "lb"),
    ("Parmesan Cheese", "lb"),
    ("Pepper Jack Cheese", "lb"),
    ("Provolone Cheese", "lb"),
    ("Ricotta Cheese", "oz"),
    ("Shredded Mexican Blend", "bag"),
    ("Skim Milk", "half gal"),
    ("Sour Cream", "oz"),
    ("Swiss Cheese", "lb"),
    ("Whole Milk", "half gal"),
    ("Yogurt (Greek)", "oz"),
    ("Yogurt (Plain)", "oz")
  ]),
  ("Dairy Alternatives", [
    ("Almond Milk", "carton"),
    ("Coconut Milk (Carton)", "carton"),
    ("Oat Milk", "carton"),
    ("Soy Milk", "carton"),
    ("Vegan Butter", "each"),
    ("Vegan Cheese", "each")
  ]),
  ("Meat - Beef", [
    ("Brisket", "lb"),
    ("Chuck Roast", "lb"),
    ("Filet Mignon", "lb"),
    ("Flank Steak", "lb"),
    ("Ground Beef (80/20)", "lb"),
    ("Ground Beef (90/10)", "lb"),
    ("NY Strip Steak", "lb"),
    ("Pastrami Slices", "lb"),
    ("Ribeye Steak", "lb"),
    ("Short Ribs", "lb"),
    ("Sirloin Steak", "lb"),
    ("Skirt Steak", "lb"),
    ("Stew Meat", "lb")
  ]),
  ("Meat - Pork", [
    ("Baby Back Ribs", "lb"),
    ("Bacon", "pack"),
    ("Bratwurst", "pack"),
    ("Breakfast Sausage", "pack"),
    ("Ground Pork", "lb"),
    ("Ham (Sliced)", "lb"),
    ("Ham (Whole)", "lb"),
    ("Hot Dogs", "pack"),
    ("Italian Sausage", "lb"),
    ("Pepperoni", "pack"),
    ("Pork Chops (Bone-In)", "lb"),
    ("Pork Chops (Boneless)", "lb"),
    ("Pork Loin Roast", "lb"),
    ("Pork Shoulder", "lb"),
    ("Pork Tenderloin", "lb"),
    ("Prosciutto", "oz"),
    ("Salami", "oz"),
    ("Spare Ribs", "lb")
  ]),
  ("Meat - Poultry", [
    ("Chicken Breast (Bone-In)", "lb"),
    ("Chicken Breast (Boneless)", "lb"),
    ("Chicken Drumsticks", "lb"),
    ("Chicken Thighs (Bone-In)", "lb"),
    ("Chicken Thighs (Boneless)", "lb"),
    ("Chicken Wings", "lb"),
    ("Ground Chicken", "lb"),
    ("Ground Turkey", "lb"),
    ("Rotisserie Chicken", "each"),
    ("Turkey (Deli Sliced)", "lb"),
    ("Turkey Breast", "lb"),
    ("Whole Chicken", "each")
  ]),
  ("Seafood", [
    ("Crab Meat", "lb"),
    ("Salmon Fillet", "lb"),
    ("Sea Bass", "lb"),
    ("Shrimp (Cooked)", "lb"),
    ("Shrimp (Raw)", "lb")
  ]),
  ("Canned Goods", [
    ("Artichoke Hearts", "can"),
    ("Baked Beans", "can"),
    ("Beef Broth", "carton"),
    ("Black Beans", "can"),
    ("Chicken Broth", "carton"),
    ("Chipotle in Adobo", "can"),
    ("Coconut Milk (Canned)", "can"),
    ("Corn (Canned)", "can"),
    ("Crushed Tomatoes", "can"),
    ("Diced Tomatoes", "can"),
    ("Evaporated Milk", "can"),
    ("Green Beans (Canned)", "can"),
    ("Green Chiles", "can"),
    ("Jalape√±os (Pickled)", "jar"),
    ("Kidney Beans", "can"),
    ("Mixed Vegetables", "can"),
    ("Olives (Black)", "can"),
    ("Olives (Green)", "jar"),
    ("Peas (Canned)", "can"),
    ("Pinto Beans", "can"),
    ("Pumpkin Puree", "can"),
    ("Refried Beans", "can"),
    ("Roasted Red Peppers", "jar"),
    ("Sweetened Condensed Milk", "can"),
    ("Tomato Paste", "can"),
    ("Tomato Sauce", "can"),
    ("Tuna (Canned)", "can"),
    ("Vegetable Broth", "carton")
  ]),
  ("Grains & Pasta", [
    ("Angel Hair", "box"),
    ("Arborio Rice", "lb"),
    ("Barley", "lb"),
    ("Basmati Rice", "lb"),
    ("Brown Rice", "lb"),
    ("Bulgur", "lb"),
    ("Couscous", "box"),
    ("Egg Noodles", "bag"),
    ("Farfalle (Bow Tie)", "box"),
    ("Farro", "lb"),
    ("Fettuccine", "box"),
    ("Fusilli", "box"),
    ("Jasmine Rice", "lb"),
    ("Lasagna Noodles", "box"),
    ("Linguine", "box"),
    ("Macaroni", "box"),
    ("Oats (Instant)", "box"),
    ("Oats (Rolled)", "container"),
    ("Oats (Steel Cut)", "container"),
    ("Orzo", "box"),
    ("Penne", "box"),
    ("Quinoa", "lb"),
    ("Ramen Noodles", "pack"),
    ("Ravioli", "pack"),
    ("Rice Noodles", "pack"),
    ("Rigatoni", "box"),
    ("Soba Noodles", "pack"),
    ("Spaghetti", "box"),
    ("Tortellini", "pack"),
    ("Udon Noodles", "pack"),
    ("White Rice (Long Grain)", "lb"),
    ("Wild Rice", "lb")
  ]),
  ("Bread & Bakery", [
    ("Bagels", "pack"),
    ("Breadcrumbs", "container"),
    ("Ciabatta", "each"),
    ("Corn Tortillas", "pack"),
    ("Croissants", "pack"),
    ("Croutons", "bag"),
    ("English Muffins", "pack"),
    ("Flour Tortillas", "pack"),
    ("French Bread", "loaf"),
    ("Hamburger Buns", "pack"),
    ("Hot Dog Buns", "pack"),
    ("Italian Bread", "loaf"),
    ("Multigrain Bread", "loaf"),
    ("Naan", "pack"),
    ("Panko Breadcrumbs", "container"),
    ("Pita Bread", "pack"),
    ("Rye Bread", "loaf"),
    ("Sourdough Bread", "loaf"),
    ("Wheat Bread", "loaf"),
    ("White Bread", "loaf")
  ]),
  ("Baking", [
    ("Active Dry Yeast", "pack"),
    ("Agave Nectar", "bottle"),
    ("All-Purpose Flour", "lb"),
    ("Almond Extract", "bottle"),
    ("Almond Flour", "lb"),
    ("Baking Chocolate", "bar"),
    ("Baking Powder", "can"),
    ("Baking Soda", "box"),
    ("Bread Flour", "lb"),
    ("Brown Sugar", "lb"),
    ("Cake Flour", "lb"),
    ("Chocolate Chips", "bag"),
    ("Cocoa Powder", "container"),
    ("Coconut Flour", "lb"),
    ("Corn Syrup", "bottle"),
    ("Cornmeal", "lb"),
    ("Cornstarch", "box"),
    ("Cream of Tartar", "container"),
    ("Granulated Sugar", "lb"),
    ("Honey", "bottle"),
    ("Instant Yeast", "pack"),
    ("Maple Syrup", "bottle"),
    ("Molasses", "bottle"),
    ("Powdered Sugar", "lb"),
    ("Shortening", "can"),
    ("Vanilla Extract", "bottle"),
    ("Whole Wheat Flour", "lb")
  ]),
  ("Oils & Vinegars", [
    ("Apple Cider Vinegar", "bottle"),
    ("Avocado Oil", "bottle"),
    ("Balsamic Vinegar", "bottle"),
    ("Canola Oil", "bottle"),
    ("Coconut Oil", "jar"),
    ("Cooking Spray", "can"),
    ("Olive Oil (Extra Virgin)", "bottle"),
    ("Olive Oil (Light)", "bottle"),
    ("Peanut Oil", "bottle"),
    ("Red Wine Vinegar", "bottle"),
    ("Rice Vinegar", "bottle"),
    ("Sesame Oil", "bottle"),
    ("Vegetable Oil", "bottle"),
    ("White Vinegar", "bottle")
  ]),
  ("Spices & Seasonings", [
    ("Allspice", "container"),
    ("Basil (Dried)", "container"),
    ("Bay Leaves", "container"),
    ("Black Pepper", "container"),
    ("Caraway Seeds", "container"),
    ("Cardamom", "container"),
    ("Cayenne Pepper", "container"),
    ("Celery Salt", "container"),
    ("Celery Seed", "container"),
    ("Chili Powder", "container"),
    ("Cinnamon (Ground)", "container"),
    ("Cinnamon Sticks", "container"),
    ("Cloves", "container"),
    ("Coriander", "container"),
    ("Cumin", "container"),
    ("Curry Powder", "container"),
    ("Dill (Dried)", "container"),
    ("Fennel Seeds", "container"),
    ("Garam Masala", "container"),
    ("Garlic Powder", "container"),
    ("Ginger (Ground)", "container"),
    ("Herbs de Provence", "container"),
    ("Italian Seasoning", "container"),
    ("Mustard (Dry)", "container"),
    ("Mustard Seeds", "container"),
    ("Nutmeg", "container"),
    ("Onion Powder", "container"),
    ("Oregano (Dried)", "container"),
    ("Paprika", "container"),
    ("Poppy Seeds", "container"),
    ("Ranch Seasoning", "pack"),
    ("Red Pepper Flakes", "container"),
    ("Rosemary (Dried)", "container"),
    ("Saffron", "container"),
    ("Salt (Kosher)", "box"),
    ("Salt (Sea)", "container"),
    ("Salt (Table)", "container"),
    ("Sesame Seeds", "container"),
    ("Smoked Paprika", "container"),
    ("Taco Seasoning", "pack"),
    ("Thyme (Dried)", "container"),
    ("Turmeric", "container"),
    ("White Pepper", "container")
  ]),
  ("Condiments", [
    ("Alfredo Sauce", "jar"),
    ("BBQ Sauce", "bottle"),
    ("Blue Cheese Dressing", "bottle"),
    ("Caesar Dressing", "bottle"),
    ("Capers", "jar"),
    ("Fish Sauce", "bottle"),
    ("Guacamole", "container"),
    ("Hoisin Sauce", "bottle"),
    ("Hot Sauce", "bottle"),
    ("Hummus", "container"),
    ("Italian Dressing", "bottle"),
    ("Ketchup", "bottle"),
    ("Kimchi", "jar"),
    ("Marinara Sauce", "jar"),
    ("Mayonnaise", "jar"),
    ("Mustard (Dijon)", "jar"),
    ("Mustard (Spicy Brown)", "bottle"),
    ("Mustard (Yellow)", "bottle"),
    ("Oyster Sauce", "bottle"),
    ("Pesto", "jar"),
    ("Pickles (Bread & Butter)", "jar"),
    ("Pickles (Dill)", "jar"),
    ("Pico de Gallo", "container"),
    ("Ranch Dressing", "bottle"),
    ("Relish", "jar"),
    ("Salsa", "jar"),
    ("Sauerkraut", "jar"),
    ("Soy Sauce", "bottle"),
    ("Sriracha", "bottle"),
    ("Sun-Dried Tomatoes", "jar"),
    ("Tahini", "jar"),
    ("Teriyaki Sauce", "bottle"),
    ("Thousand Island", "bottle"),
    ("Vinaigrette", "bottle"),
    ("Worcestershire Sauce", "bottle")
  ]),
  ("Nuts & Seeds", [
    ("Almond Butter", "jar"),
    ("Almonds", "bag"),
    ("Brazil Nuts", "bag"),
    ("Cashews", "bag"),
    ("Chia Seeds", "bag"),
    ("Flax Seeds", "bag"),
    ("Hazelnuts", "bag"),
    ("Hemp Seeds", "bag"),
    ("Macadamia Nuts", "bag"),
    ("Peanut Butter", "jar"),
    ("Peanuts", "bag"),
    ("Pecans", "bag"),
    ("Pine Nuts", "bag"),
    ("Pistachios", "bag"),
    ("Pumpkin Seeds", "bag"),
    ("Sunflower Seeds", "bag"),
    ("Walnuts", "bag")
  ]),
  ("Dried Fruits", [
    ("Dates", "container"),
    ("Dried Apricots", "bag"),
    ("Dried Cranberries", "bag"),
    ("Dried Figs", "bag"),
    ("Dried Mango", "bag"),
    ("Dried Pineapple", "bag"),
    ("Prunes", "bag"),
    ("Raisins", "box"),
    ("Trail Mix", "bag")
  ]),
  ("Frozen - Vegetables", [
    ("Frozen Broccoli", "bag"),
    ("Frozen Cauliflower Rice", "bag"),
    ("Frozen Corn", "bag"),
    ("Frozen Edamame", "bag"),
    ("Frozen Green Beans", "bag"),
    ("Frozen Mixed Vegetables", "bag"),
    ("Frozen Peas", "bag"),
    ("Frozen Spinach", "bag"),
    ("Frozen Stir Fry Mix", "bag")
  ]),
  ("Frozen - Fruits", [
    ("Frozen Bananas", "bag"),
    ("Frozen Blueberries", "bag"),
    ("Frozen Mango", "bag"),
    ("Frozen Mixed Berries", "bag"),
    ("Frozen Peaches", "bag"),
    ("Frozen Pineapple", "bag"),
    ("Frozen Raspberries", "bag"),
    ("Frozen Strawberries", "bag")
  ]),
  ("Frozen - Meats", [
    ("Frozen Burgers", "box"),
    ("Frozen Chicken Breasts", "bag"),
    ("Frozen Chicken Wings", "bag"),
    ("Frozen Ground Beef", "lb"),
    ("Frozen Meatballs", "bag")
  ]),
  ("Frozen - Seafood", [
    ("Frozen Fish Sticks", "box"),
    ("Frozen Salmon", "lb"),
    ("Frozen Shrimp", "bag"),
    ("Frozen Tilapia", "bag")
  ]),
  ("Frozen - Prepared", [
    ("Frozen Burritos", "pack"),
    ("Frozen Dinner Entrees", "each"),
    ("Frozen French Fries", "bag"),
    ("Frozen Hash Browns", "bag"),
    ("Frozen Pancakes", "box"),
    ("Frozen Pizza", "each"),
    ("Frozen Pot Pies", "each"),
    ("Frozen Tater Tots", "bag"),
    ("Frozen Waffles", "box")
  ]),
  ("Frozen - Desserts", [
    ("Frozen Phyllo Dough", "box"),
    ("Frozen Pie Crusts", "pack"),
    ("Frozen Puff Pastry", "box"),
    ("Frozen Yogurt", "pint"),
    ("Ice Cream", "pint"),
    ("Ice Cream Bars", "box")
  ]),
  ("Beverages", [
    ("Apple Juice", "bottle"),
    ("Bottled Water", "pack"),
    ("Club Soda", "bottle"),
    ("Coconut Water", "carton"),
    ("Cranberry Juice", "bottle"),
    ("Energy Drinks", "pack"),
    ("Fresca", "pack"),
    ("Grape Juice", "bottle"),
    ("Iced Tea", "bottle"),
    ("Lemonade", "carton"),
    ("Orange Juice", "carton"),
    ("Soda (Cola)", "cans"),
    ("Soda (Ginger Ale)", "pack"),
    ("Soda (Lemon-Lime)", "pack"),
    ("Sparkling Water", "pack"),
    ("Sports Drinks", "pack"),
    ("Tonic Water", "bottle")
  ]),
  ("Coffee & Tea", [
    ("Black Tea", "box"),
    ("Chai Tea", "box"),
    ("Chamomile Tea", "box"),
    ("Coffee (Ground)", "bag"),
    ("Coffee (Instant)", "jar"),
    ("Coffee (K-Cups)", "box"),
    ("Coffee (Whole Bean)", "bag"),
    ("Decaf Coffee", "bag"),
    ("Earl Grey Tea", "box"),
    ("Espresso", "bag"),
    ("Green Tea", "box"),
    ("Herbal Tea", "box"),
    ("Matcha Powder", "container"),
    ("Peppermint Tea", "box")
  ]),
  ("Snacks", [
    ("Beef Jerky", "bag"),
    ("Cheese Puffs", "bag"),
    ("Crackers (Cheese)", "box"),
    ("Crackers (Graham)", "box"),
    ("Crackers (Saltine)", "box"),
    ("Crackers (Wheat)", "box"),
    ("Fruit Snacks", "box"),
    ("Granola Bars", "box"),
    ("Popcorn", "bag"),
    ("Potato Chips", "bag"),
    ("Pretzels", "bag"),
    ("Protein Bars", "box"),
    ("Rice Cakes", "bag"),
    ("Tortilla Chips", "bag"),
    ("Veggie Straws", "bag")
  ]),
  ("Breakfast", [
    ("Breakfast Bars", "box"),
    ("Cereal (Cold)", "box"),
    ("Granola", "bag"),
    ("Muesli", "bag"),
    ("Muffin Mix", "box"),
    ("Pancake Mix", "box"),
    ("Pop-Tarts", "box"),
    ("Waffle Mix", "box")
  ]),
  ("Baby & Infant", [
    ("Baby Cereal", "box"),
    ("Baby Food (Jars)", "jar"),
    ("Baby Food (Pouches)", "each"),
    ("Baby Formula", "can"),
    ("Teething Biscuits", "box")
  ]),
  ("Pet Food", [
    ("Cat Food (Dry)", "bag"),
    ("Cat Food (Wet)", "can"),
    ("Cat Treats", "bag"),
    ("Dog Food (Dry)", "bag"),
    ("Dog Food (Wet)", "can"),
    ("Dog Treats", "bag")
  ]),
  ("Household - Paper", [
    ("Aluminum Foil", "roll"),
    ("Facial Tissues", "box"),
    ("Napkins", "pack"),
    ("Paper Cups", "pack"),
    ("Paper Plates", "pack"),
    ("Paper Towels", "pack"),
    ("Parchment Paper", "roll"),
    ("Plastic Wrap", "roll"),
    ("Toilet Paper", "pack"),
    ("Trash Bags (Kitchen)", "box"),
    ("Trash Bags (Large)", "box"),
    ("Wax Paper", "roll"),
    ("Zip-Lock Bags (Gallon)", "box"),
    ("Zip-Lock Bags (Quart)", "box"),
    ("Zip-Lock Bags (Sandwich)", "box")
  ]),
  ("Household - Cleaning", [
    ("All-Purpose Cleaner", "bottle"),
    ("Bleach", "bottle"),
    ("Broom", "each"),
    ("Dish Soap", "bottle"),
    ("Dishwasher Detergent", "bottle"),
    ("Disinfecting Wipes", "container"),
    ("Dryer Sheets", "box"),
    ("Fabric Softener", "bottle"),
    ("Glass Cleaner", "bottle"),
    ("Laundry Detergent", "bottle"),
    ("Mop", "each"),
    ("Scrub Brushes", "each"),
    ("Sponges", "pack")
  ]),
  ("Personal Care", [
    ("Bar Soap", "pack"),
    ("Body Wash", "bottle"),
    ("Conditioner", "bottle"),
    ("Cotton Balls", "bag"),
    ("Cotton Swabs", "box"),
    ("Dental Floss", "each"),
    ("Deodorant", "each"),
    ("Hand Sanitizer", "bottle"),
    ("Hand Soap", "bottle"),
    ("Lip Balm", "each"),
    ("Lotion", "bottle"),
    ("Mouthwash", "bottle"),
    ("Razors", "pack"),
    ("Shampoo", "bottle"),
    ("Shaving Cream", "can"),
    ("Sunscreen", "bottle"),
    ("Toothbrush", "each"),
    ("Toothpaste", "each")
  ]),
  ("Health", [
    ("Allergy Medicine", "box"),
    ("Antacid", "bottle"),
    ("Bandages", "box"),
    ("Cold Medicine", "bottle"),
    ("Cough Drops", "bag"),
    ("First Aid Kit", "each"),
    ("Fish Oil", "bottle"),
    ("Melatonin", "bottle"),
    ("Multivitamins", "bottle"),
    ("Pain Reliever (Acetaminophen)", "bottle"),
    ("Pain Reliever (Ibuprofen)", "bottle"),
    ("Probiotics", "bottle"),
    ("Vitamin C", "bottle"),
    ("Vitamin D", "bottle")
  ]),
  ("International", [
    ("Coconut Cream", "can"),
    ("Curry Paste", "jar"),
    ("Enchilada Sauce", "can"),
    ("Miso Paste", "container"),
    ("Mole Sauce", "jar"),
    ("Seaweed/Nori", "pack"),
    ("Taco Shells", "box"),
    ("Tempeh", "pack"),
    ("Tofu", "pack")
  ])
]

/-- Source constant CUSTOM_UNITS: item → (unit options, default index). -/
def CUSTOM_UNITS : List (String × (List String × Nat)) := [
  ("Whole Milk", (["quart", "half gallon", "gallon"], 1)),
  ("2% Milk", (["quart", "half gallon", "gallon"], 1)),
  ("Skim Milk", (["quart", "half gallon", "gallon"], 1)),
  ("Half & Half", (["pint", "quart"], 0)),
  ("Heavy Cream", (["half pint", "pint", "quart"], 1)),
  ("Butter (Salted)", (["stick", "lb"], 0)),
  ("Butter (Unsalted)", (["stick", "lb"], 0)),
  ("Eggs (Large)", (["half dozen", "dozen", "18-count"], 1)),
  ("Sour Cream", (["8 oz", "16 oz"], 1)),
  ("Cream Cheese", (["8 oz", "tub"], 0)),
  ("Cottage Cheese", (["16 oz", "24 oz"], 0)),
  ("Ricotta Cheese", (["15 oz", "32 oz"], 0)),
  ("Yogurt (Plain)", (["5.3 oz", "32 oz"], 1)),
  ("Yogurt (Greek)", (["5.3 oz", "32 oz"], 0)),
  ("Cheddar Cheese", (["slices", "block", "lb", "8 oz shredded"], 1)),
  ("Swiss Cheese", (["slices", "block", "lb"], 0)),
  ("Mozzarella Cheese", (["slices", "block", "lb", "8 oz shredded", "fresh ball"], 1)),
  ("Parmesan Cheese", (["wedge", "grated", "lb"], 0)),
  ("Provolone Cheese", (["slices", "block", "lb"], 0)),
  ("American Cheese", (["slices", "block", "lb"], 0)),
  ("Pepper Jack Cheese", (["slices", "block", "lb", "8 oz shredded"], 1)),
  ("Feta Cheese", (["4 oz crumbles", "8 oz block", "lb"], 0)),
  ("Blue Cheese", (["4 oz crumbles", "8 oz wedge", "lb"], 0)),
  ("Goat Cheese", (["4 oz log", "8 oz log", "crumbles"], 0)),
  ("Brie", (["small wheel", "wedge", "lb"], 0)),
  ("Shredded Mexican Blend", (["8 oz", "16 oz", "32 oz"], 1))
]

/-- Source constant ITEM_BRANDS: item → ordered list of brand options. -/
def ITEM_BRANDS : List (String × List String) := [
  ("Whole Milk", ["", "Prairie Farms", "Organic Valley", "Fairlife", "Kirkland"]),
  ("2% Milk", ["", "Prairie Farms", "Organic Valley", "Fairlife", "Kirkland"]),
  ("Skim Milk", ["", "Prairie Farms", "Organic Valley", "Fairlife"]),
  ("Half & Half", ["", "Prairie Farms", "Organic Valley", "Land O\x27Lakes"]),
  ("Heavy Cream", ["", "Prairie Farms", "Organic Valley", "Land O\x27Lakes"]),
  ("Butter (Salted)", ["", "Kerrygold", "Land O\x27Lakes", "Kirkland", "Prairie Farms"]),
  ("Butter (Unsalted)", ["", "Kerrygold", "Land O\x27Lakes", "Kirkland", "Prairie Farms"]),
  ("Eggs (Large)", ["", "Kirkland", "Eggland\x27s Best", "Vital Farms", "Store Brand"]),
  ("Yogurt (Plain)", ["", "Fage", "Chobani", "Kirkland", "Stonyfield"]),
  ("Yogurt (Greek)", ["", "Fage", "Chobani", "Kirkland", "Stonyfield"]),
  ("Cream Cheese", ["", "Philadelphia", "Prairie Farms", "Store Brand"]),
  ("Sour Cream", ["", "Daisy", "Prairie Farms", "Store Brand"]),
  ("Cottage Cheese", ["", "Prairie Farms", "Daisy", "Breakstone\x27s", "Store Brand"]),
  ("Cheddar Cheese", ["", "Tillamook", "Kerrygold", "Cabot", "Boar\x27s Head", "Kirkland"]),
  ("Swiss Cheese", ["", "Boar\x27s Head", "Tillamook", "Finlandia", "Kirkland"]),
  ("Mozzarella Cheese", ["", "BelGioioso", "Galbani", "Boar\x27s Head", "Kirkland"]),
  ("Parmesan Cheese", ["", "Parmigiano-Reggiano", "BelGioioso", "Kirkland"]),
  ("Provolone Cheese", ["", "Boar\x27s Head", "BelGioioso", "Tillamook", "Kirkland"]),
  ("American Cheese", ["", "Boar\x27s Head", "Tillamook", "Land O\x27Lakes", "Kirkland"]),
  ("Pepper Jack Cheese", ["", "Tillamook", "Boar\x27s Head", "Cabot", "Kirkland"]),
  ("Feta Cheese", ["", "Mt Vikos", "Athenos", "Kirkland", "BelGioioso"]),
  ("Blue Cheese", ["", "Rogue Creamery", "Maytag", "Point Reyes", "Kirkland"]),
  ("Goat Cheese", ["", "Montchevre", "Laura Chenel", "Kirkland"]),
  ("Ricotta Cheese", ["", "BelGioioso", "Galbani", "Calabro"]),
  ("Brie", ["", "President", "St. Andre", "Kirkland"]),
  ("Shredded Mexican Blend", ["", "Tillamook", "Kirkland", "Sargento"]),
  ("Almond Milk", ["", "Silk", "Kirkland", "Blue Diamond"]),
  ("Oat Milk", ["", "Oatly", "Chobani", "Kirkland", "Planet Oat"]),
  ("Diced Tomatoes", ["", "Muir Glen", "Cento", "Kirkland", "San Marzano"]),
  ("Crushed Tomatoes", ["", "Muir Glen", "Cento", "Kirkland", "San Marzano"]),
  ("Tomato Paste", ["", "Muir Glen", "Cento", "Amore"]),
  ("Tomato Sauce", ["", "Muir Glen", "Cento", "Kirkland"]),
  ("Black Beans", ["", "Bush\x27s", "Goya", "Kirkland", "Store Brand"]),
  ("Kidney Beans", ["", "Bush\x27s", "Goya", "Store Brand"]),
  ("Pinto Beans", ["", "Bush\x27s", "Goya", "Store Brand"]),
  ("Tuna (Canned)", ["", "Wild Planet", "Kirkland", "Starkist", "Bumble Bee"]),
  ("Chicken Broth", ["", "Swanson", "Kirkland", "Pacific", "Store Brand"]),
  ("Beef Broth", ["", "Swanson", "Kirkland", "Pacific", "Store Brand"]),
  ("Vegetable Broth", ["", "Swanson", "Kirkland", "Pacific", "Store Brand"]),
  ("Ketchup", ["", "Heinz", "Hunt\x27s", "Store Brand"]),
  ("Mustard (Yellow)", ["", "French\x27s", "Heinz"]),
  ("Mustard (Dijon)", ["", "Grey Poupon", "Maille"]),
  ("Mayonnaise", ["", "Hellmann\x27s", "Duke\x27s", "Kirkland"]),
  ("Hot Sauce", ["", "Tabasco", "Frank\x27s RedHot", "Cholula", "Sriracha"]),
  ("Soy Sauce", ["", "Kikkoman", "San-J", "Kirkland"]),
  ("Marinara Sauce", ["", "Rao\x27s", "La San Marzano", "Victoria", "Kirkland"]),
  ("Peanut Butter", ["", "Smucker\x27s Natural", "Justin\x27s", "Kirkland", "Jif"]),
  ("Almond Butter", ["", "Justin\x27s", "MaraNatha", "Kirkland"]),
  ("Olive Oil (Extra Virgin)", ["", "California Olive Ranch", "Kirkland", "Lucini", "Colavita"]),
  ("Bacon", ["", "Nueske\x27s", "Applegate", "Wright", "Kirkland"]),
  ("Coffee (Ground)", ["", "Peet\x27s", "Intelligentsia", "Starbucks", "Kirkland"]),
  ("Coffee (Whole Bean)", ["", "Intelligentsia", "Peet\x27s", "Lavazza", "Kirkland"])
]

/-- Source function get_brand_group: the first group in BRAND_GROUPS whose
item list contains the item, else None. -/
def get_brand_group (item : String) : Option String :=
  match BRAND_GROUPS.find? (fun p => p.2.contains item) with
  | some p => some p.1
  | none => none

/-- One step of the source's append-unless-present pattern
(if x not in acc: acc.append(x)). -/
def appendIfNew (acc : List String) (b : String) : List String :=
  if b ∈ acc then acc else acc ++ [b]

/-- A preference record is a string-valued field dictionary, e.g.
[("unit", u), ("brand", b)]. -/
abbrev PrefRecord := List (String × String)

/-- The in-memory item_preferences mapping: item name to preference record. -/
abbrev PrefsMap := List (String × PrefRecord)

/-- The in-memory custom_brands mapping: group key to brand list. -/
abbrev BrandsMap := List (String × List String)

/-- The in-memory custom_items mapping: category to (item to unit). -/
abbrev ItemsMap := List (String × List (String × String))

/-- Source function get_brands_for_item: predefined brands, then custom brands
of the item's group that are not already present, then the saved preference
brand if non-empty and not already present. -/
def get_brands_for_item (item : String) (custom_brands_dict : BrandsMap)
    (preferences_dict : PrefsMap) : List String :=
  match dlookup ITEM_BRANDS item with
  | none => []
  | some predefined =>
    let brands := predefined
    let brands :=
      match get_brand_group item with
      | some group =>
        match dlookup custom_brands_dict group with
        | some customs => customs.foldl appendIfNew brands
        | none => brands
      | none => brands
    match dlookup preferences_dict item with
    | some prefs =>
      match dlookup prefs "brand" with
      | some saved_brand =>
        if saved_brand ≠ "" ∧ saved_brand ∉ brands then brands ++ [saved_brand]
        else brands
      | none => brands
    | none => brands

/-- Source function get_default_unit: CUSTOM_UNITS default entry first, then
the first MASTER_LIST category containing the item, then "each". An
out-of-range default index would be a Python IndexError; the sentinel below is
proved unreachable for the fixed CUSTOM_UNITS data. -/
def get_default_unit (item_name : String) : String :=
  match dlookup CUSTOM_UNITS item_name with
  | some (units, default_idx) => (units[default_idx]?).getD "<IndexError>"
  | none =>
    match MASTER_LIST.findSome? (fun p => dlookup p.2 item_name) with
    | some u => u
    | none => "each"

/-- One entry of the shopping cart (st.session_state.grocery_list). -/
structure CartEntry where
  item : String
  qty : Nat
  unit : String
  brand : String
deriving DecidableEq

/-- The mutable session state the resolver operations act on. -/
structure AppState where
  item_preferences : PrefsMap
  custom_brands : BrandsMap
  hidden_items : List String
  custom_items : ItemsMap
  grocery_list : List CartEntry
deriving DecidableEq

/-- Source handler for the Save Preferences button: upsert the preference
record, and when the brand is non-empty, the item has predefined brands, and
the brand is not among them, add it to the item's group's custom brands
unless already present (creating the group's list first when absent). -/
def savePreference (item new_unit new_brand : String) (s : AppState) : AppState :=
  let s := { s with item_preferences :=
               dinsert s.item_preferences item [("unit", new_unit), ("brand", new_brand)] }
  if new_brand ≠ "" ∧ (dlookup ITEM_BRANDS item).isSome ∧
      new_brand ∉ (dlookup ITEM_BRANDS item).getD [] then
    match get_brand_group item with
    | some group =>
      let cb := if (dlookup s.custom_brands group).isSome then s.custom_brands
                else dinsert s.custom_brands group []
      let cur := (dlookup cb group).getD []
      let cb := if new_brand ∈ cur then cb else dinsert cb group (cur ++ [new_brand])
      { s with custom_brands := cb }
    | none => s
  else s

/-- Source handler hiding a built-in item: hidden_items.add(item). A Python
set is modelled as a duplicate-free list; add appends when absent. -/
def hideItem (item : String) (s : AppState) : AppState :=
  if item ∈ s.hidden_items then s
  else { s with hidden_items := s.hidden_items ++ [item] }

/-- Source handler restoring a hidden item: hidden_items.remove(item), which
raises KeyError when the item is absent (the UI only offers the button for
items currently in hidden_items). -/
def restoreItem (item : String) (s : AppState) : Except Unit AppState :=
  if item ∈ s.hidden_items then
    .ok { s with hidden_items := s.hidden_items.erase item }
  else .error ()

/-- Source handler deleting a custom item: del custom_items[category][item],
then delete the category key when its mapping became empty. The UI only
invokes it for an existing custom item; an absent category is left unchanged
here (Python would raise KeyError, unreachable from the UI). -/
def deleteCustomItem (category item : String) (s : AppState) : AppState :=
  match dlookup s.custom_items category with
  | none => s
  | some m =>
    let m := dremove m item
    if m.isEmpty then { s with custom_items := dremove s.custom_items category }
    else { s with custom_items := dinsert s.custom_items category m }

/-! ## Dictionary lemmas -/

theorem dlookup_dinsert_self {α : Type} (d : List (String × α)) (k : String) (v : α) :
    dlookup (dinsert d k v) k = some v := by
  induction d with
  | nil => simp [dinsert, dlookup]
  | cons p rest ih =>
    obtain ⟨k', v'⟩ := p
    by_cases h : k' = k
    · simp [dinsert, h, dlookup]
    · simp [dinsert, h, dlookup, ih]

theorem dlookup_dinsert_ne {α : Type} (d : List (String × α)) (k k' : String) (v : α)
    (h : k' ≠ k) : dlookup (dinsert d k v) k' = dlookup d k' := by
  induction d with
  | nil =>
    simp only [dinsert, dlookup]
    rw [if_neg (fun hh => h hh.symm)]
  | cons p rest ih =>
    obtain ⟨k0, v0⟩ := p
    by_cases h0 : k0 = k
    · subst h0
      simp only [dinsert, if_pos rfl, dlookup]
      rw [if_neg (fun hh => h hh.symm), if_neg (fun hh => h hh.symm)]
    · simp only [dinsert, if_neg h0, dlookup]
      by_cases h1 : k0 = k'
      · rw [if_pos h1, if_pos h1]
      · rw [if_neg h1, if_neg h1, ih]

theorem dinsert_of_dlookup_eq {α : Type} (d : List (String × α)) (k : String) (v : α)
    (h : dlookup d k = some v) : dinsert d k v = d := by
  induction d with
  | nil => simp [dlookup] at h
  | cons p rest ih =>
    obtain ⟨k0, v0⟩ := p
    by_cases h0 : k0 = k
    · subst h0
      simp [dlookup] at h
      simp [dinsert, h]
    · simp [dlookup, h0] at h
      simp [dinsert, h0, ih h]

theorem dlookup_mem {α : Type} (d : List (String × α)) (k : String) (v : α)
    (h : dlookup d k = some v) : (k, v) ∈ d := by
  induction d with
  | nil => simp [dlookup] at h
  | cons p rest ih =>
    obtain ⟨k0, v0⟩ := p
    by_cases h0 : k0 = k
    · subst h0
      simp [dlookup] at h
      simp [h]
    · simp [dlookup, h0] at h
      exact List.mem_cons_of_mem _ (ih h)

/-! ## The append-unless-present fold -/

theorem foldl_appendIfNew (bs : List String) :
    ∀ acc : List String, ∃ customs : List String,
      bs.foldl appendIfNew acc = acc ++ customs ∧ customs.Sublist bs ∧ customs.Nodup ∧
      (∀ b, b ∈ customs ↔ b ∈ bs ∧ b ∉ acc) := by
  induction bs with
  | nil => exact fun acc => ⟨[], by simp, by simp, by simp, by simp⟩
  | cons b bs ih =>
    intro acc
    by_cases hb : b ∈ acc
    · obtain ⟨customs, h1, h2, h3, h4⟩ := ih acc
      refine ⟨customs, ?_, h2.cons b, h3, ?_⟩
      · simpa [appendIfNew, hb] using h1
      · intro x
        rw [h4]
        constructor
        · rintro ⟨hx1, hx2⟩
          exact ⟨List.mem_cons_of_mem _ hx1, hx2⟩
        · rintro ⟨hx1, hx2⟩
          rcases List.mem_cons.mp hx1 with rfl | hx1
          · exact absurd hb hx2
          · exact ⟨hx1, hx2⟩
    · obtain ⟨customs, h1, h2, h3, h4⟩ := ih (acc ++ [b])
      have hbc : b ∉ customs := by
        intro hbc
        have := ((h4 b).mp hbc).2
        simp at this
      refine ⟨b :: customs, ?_, h2.cons₂ b, List.nodup_cons.mpr ⟨hbc, h3⟩, ?_⟩
      · have : appendIfNew acc b = acc ++ [b] := by simp [appendIfNew, hb]
        rw [List.foldl_cons, this, h1, List.append_assoc]
        rfl
      · intro x
        rw [List.mem_cons, h4]
        constructor
        · rintro (rfl | ⟨hx1, hx2⟩)
          · exact ⟨List.mem_cons_self _ _, hb⟩
          · rw [List.mem_append] at hx2
            push_neg at hx2
            exact ⟨List.mem_cons_of_mem _ hx1, hx2.1⟩
        · rintro ⟨hx1, hx2⟩
          by_cases hxb : x = b
          · exact Or.inl hxb
          · rcases List.mem_cons.mp hx1 with rfl | hx1
            · exact Or.inl rfl
            · refine Or.inr ⟨hx1, ?_⟩
              simp [hxb, hx2]

theorem nodup_append_singleton (l : List String) (a : String) :
    l.Nodup → a ∉ l → (l ++ [a]).Nodup := by
  intro h1 h2
  rw [List.nodup_append]
  refine ⟨h1, by simp, ?_⟩
  intro x hx
  simp only [List.mem_singleton]
  intro hxa
  exact h2 (hxa ▸ hx)

/-! ## Facts about the fixed catalog data -/

/-- Every predefined brand list starts with the empty-string sentinel and has
no duplicates. -/
theorem ITEM_BRANDS_wf : ∀ p ∈ ITEM_BRANDS, p.2.head? = some "" ∧ p.2.Nodup := by decide

/-- Every CUSTOM_UNITS default index is in range of its unit list. -/
theorem CUSTOM_UNITS_idx_lt : ∀ p ∈ CUSTOM_UNITS, p.2.2 < p.2.1.length := by decide

/-! ## Statement accessors (the access paths the source uses) -/

/-- The custom-brand list consulted by get_brands_for_item: the custom_brands
entry at the item's brand group, when both exist, else the empty list. -/
def groupCustoms (item : String) (custom_brands_dict : BrandsMap) : List String :=
  match get_brand_group item with
  | some group => (dlookup custom_brands_dict group).getD []
  | none => []

/-- The saved preference brand consulted by get_brands_for_item:
preferences_dict[item].get("brand"). -/
def savedBrand (item : String) (preferences_dict : PrefsMap) : Option String :=
  (dlookup preferences_dict item).bind (fun prefs => dlookup prefs "brand")

/-- Normal form of get_brands_for_item when the item has predefined brands. -/
theorem get_brands_eq (item : String) (cb : BrandsMap) (prefs : PrefsMap)
    (static : List String) (h : dlookup ITEM_BRANDS item = some static) :
    get_brands_for_item item cb prefs =
      (let mid := (groupCustoms item cb).foldl appendIfNew static
       match savedBrand item prefs with
       | some b => if b ≠ "" ∧ b ∉ mid then mid ++ [b] else mid
       | none => mid) := by
  unfold get_brands_for_item groupCustoms savedBrand
  rw [h]
  cases hg : get_brand_group item with
  | none =>
    cases hp : dlookup prefs item with
    | none => simp
    | some r =>
      cases hr : dlookup r "brand" with
      | none => simp
      | some b => simp
  | some g =>
    cases hcb : dlookup cb g with
    | none =>
      cases hp : dlookup prefs item with
      | none => simp [hcb]
      | some r =>
        cases hr : dlookup r "brand" with
        | none => simp [hcb]
        | some b => simp [hcb]
    | some customs =>
      cases hp : dlookup prefs item with
      | none => simp [hcb]
      | some r =>
        cases hr : dlookup r "brand" with
        | none => simp [hcb]
        | some b => simp [hcb]

/-! ## Claim C1 -/

/-- C1: for every item, custom-brands mapping, and preferences mapping, if the
item has no ITEM_BRANDS entry get_brands_for_item returns []; otherwise it
returns the predefined list (whose first entry is the empty-string sentinel),
followed by the group's custom brands in insertion order that are not already
present, followed by at most one trailing saved-preference brand (appended
exactly when that brand is non-empty and not already present), and the result
has no duplicates under case-sensitive exact string match. -/
theorem c1_effective_brands (item : String) (cb : BrandsMap) (prefs : PrefsMap) :
    (dlookup ITEM_BRANDS item = none → get_brands_for_item item cb prefs = []) ∧
    (∀ static, dlookup ITEM_BRANDS item = some static →
      static.head? = some "" ∧
      ∃ customs tail, get_brands_for_item item cb prefs = static ++ customs ++ tail ∧
        customs.Sublist (groupCustoms item cb) ∧
        (∀ b, b ∈ customs ↔ b ∈ groupCustoms item cb ∧ b ∉ static) ∧
        (∀ b, tail = [b] ↔ savedBrand item prefs = some b ∧ b ≠ "" ∧ b ∉ static ++ customs) ∧
        (tail = [] ∨ ∃ b, tail = [b]) ∧
        (get_brands_for_item item cb prefs).Nodup) := by
  constructor
  · intro h
    unfold get_brands_for_item
    rw [h]
  · intro static h
    have hwf := ITEM_BRANDS_wf _ (dlookup_mem _ _ _ h)
    refine ⟨hwf.1, ?_⟩
    have heq := get_brands_eq item cb prefs static h
    obtain ⟨customs, hfold, hsub, hnd, hmem⟩ := foldl_appendIfNew (groupCustoms item cb) static
    have hmidnd : (static ++ customs).Nodup := by
      rw [List.nodup_append]
      refine ⟨hwf.2, hnd, ?_⟩
      intro x hx
      intro hx2
      exact ((hmem x).mp hx2).2 hx
    cases hs : savedBrand item prefs with
    | none =>
      refine ⟨customs, [], ?_, hsub, hmem, ?_, Or.inl rfl, ?_⟩
      · rw [heq, hs]
        simp [hfold]
      · intro b
        simp [hs]
      · rw [heq, hs]
        simp only [hfold]
        exact hmidnd
    | some b0 =>
      by_cases hc : b0 ≠ "" ∧ b0 ∉ static ++ customs
      · refine ⟨customs, [b0], ?_, hsub, hmem, ?_, Or.inr ⟨b0, rfl⟩, ?_⟩
        · rw [heq, hs]
          simp only [hfold]
          rw [if_pos ⟨hc.1, hc.2⟩, List.append_assoc]
        · intro b
          constructor
          · intro hb
            injection hb with hb1 _
            subst hb1
            exact ⟨rfl, hc.1, hc.2⟩
          · rintro ⟨hb1, _, _⟩
            injection hb1 with hb1
            subst hb1
            rfl
        · rw [heq, hs]
          simp only [hfold]
          rw [if_pos ⟨hc.1, hc.2⟩]
          exact nodup_append_singleton _ _ hmidnd hc.2
      · refine ⟨customs, [], ?_, hsub, hmem, ?_, Or.inl rfl, ?_⟩
        · rw [heq, hs]
          simp only [hfold]
          rw [if_neg hc]
          simp
        · intro b
          constructor
          · intro hb
            exact absurd hb (by simp)
          · rintro ⟨hb1, hb2, hb3⟩
            injection hb1 with hb1
            subst hb1
            exact absurd ⟨hb2, hb3⟩ hc
        · rw [heq, hs]
          simp only [hfold]
          rw [if_neg hc]
          exact hmidnd

/-- Witness for C1 at the spec's own example: Eggs (Large) has predefined
brands, no brand group, and an orphaned saved brand FarmFresh, which appears
exactly once at the tail. -/
theorem c1_effective_brands_witness :
    dlookup ITEM_BRANDS "Eggs (Large)" =
      some ["", "Kirkland", "Eggland\x27s Best", "Vital Farms", "Store Brand"] ∧
    get_brands_for_item "Eggs (Large)" []
        [("Eggs (Large)", [("unit", "dozen"), ("brand", "FarmFresh")])] =
      ["", "Kirkland", "Eggland\x27s Best", "Vital Farms", "Store Brand", "FarmFresh"] ∧
    (["", "Kirkland", "Eggland\x27s Best", "Vital Farms", "Store Brand"].head? = some "" ∧
      ∃ customs tail,
        get_brands_for_item "Eggs (Large)" []
            [("Eggs (Large)", [("unit", "dozen"), ("brand", "FarmFresh")])] =
          ["", "Kirkland", "Eggland\x27s Best", "Vital Farms", "Store Brand"] ++ customs ++ tail ∧
        customs.Sublist (groupCustoms "Eggs (Large)" []) ∧
        (∀ b, b ∈ customs ↔ b ∈ groupCustoms "Eggs (Large)" [] ∧
          b ∉ ["", "Kirkland", "Eggland\x27s Best", "Vital Farms", "Store Brand"]) ∧
        (∀ b, tail = [b] ↔
          savedBrand "Eggs (Large)"
              [("Eggs (Large)", [("unit", "dozen"), ("brand", "FarmFresh")])] = some b ∧
          b ≠ "" ∧
          b ∉ ["", "Kirkland", "Eggland\x27s Best", "Vital Farms", "Store Brand"] ++ customs) ∧
        (tail = [] ∨ ∃ b, tail = [b]) ∧
        (get_brands_for_item "Eggs (Large)" []
            [("Eggs (Large)", [("unit", "dozen"), ("brand", "FarmFresh")])]).Nodup) :=
  ⟨by decide, by decide,
    (c1_effective_brands "Eggs (Large)" []
        [("Eggs (Large)", [("unit", "dozen"), ("brand", "FarmFresh")])]).2
      ["", "Kirkland", "Eggland\x27s Best", "Vital Farms", "Store Brand"] (by decide)⟩

/-! ## Claim C2 -/

/-- C2: get_default_unit prefers the CUSTOM_UNITS entry (the unit at the
default index, which is always in range for the fixed data), then the first
MASTER_LIST category containing the item, then the fallback "each". -/
theorem c2_default_unit (item : String) :
    (∀ units idx, dlookup CUSTOM_UNITS item = some (units, idx) →
      ∃ u, units[idx]? = some u ∧ get_default_unit item = u) ∧
    (dlookup CUSTOM_UNITS item = none →
      (∀ u, MASTER_LIST.findSome? (fun p => dlookup p.2 item) = some u →
        get_default_unit item = u) ∧
      (MASTER_LIST.findSome? (fun p => dlookup p.2 item) = none →
        get_default_unit item = "each")) := by
  constructor
  · intro units idx h
    have hlt : idx < units.length := CUSTOM_UNITS_idx_lt _ (dlookup_mem _ _ _ h)
    refine ⟨units[idx], List.getElem?_eq_getElem hlt, ?_⟩
    unfold get_default_unit
    rw [h]
    simp [List.getElem?_eq_getElem hlt]
  · intro h
    constructor
    · intro u hu
      unfold get_default_unit
      rw [h, hu]
    · intro hu
      unfold get_default_unit
      rw [h, hu]

/-- Witness for C2 at the spec's own example: Whole Milk appears both in
CUSTOM_UNITS (default "half gallon") and in the Dairy category of MASTER_LIST
(unit "half gal"); the CUSTOM_UNITS entry wins. An item unknown to both falls
back to "each". -/
theorem c2_default_unit_witness :
    dlookup CUSTOM_UNITS "Whole Milk" = some (["quart", "half gallon", "gallon"], 1) ∧
    MASTER_LIST.findSome? (fun p => dlookup p.2 "Whole Milk") = some "half gal" ∧
    (∃ u, (["quart", "half gallon", "gallon"])[1]? = some u ∧
      get_default_unit "Whole Milk" = u) ∧
    get_default_unit "Whole Milk" = "half gallon" ∧
    get_default_unit "Not A Real Item" = "each" :=
  ⟨by decide, by decide,
    (c2_default_unit "Whole Milk").1 ["quart", "half gallon", "gallon"] 1 (by decide),
    by decide,
    ((c2_default_unit "Not A Real Item").2 (by decide)).2 (by decide)⟩

/-! ## Claim C3 -/

/-- C3: saving a preference with a non-empty brand outside the item's
predefined list adds the brand to the item's group's custom brands exactly
once (given the group's existing list holds it at most once, the invariant of
reachable states), a second identical save changes nothing at all, and for a
grouped-less item custom_brands is untouched while the preference record is
stored. -/
theorem c3_save_preference (s : AppState) (item u b : String) :
    (∀ static group, dlookup ITEM_BRANDS item = some static → b ≠ "" → b ∉ static →
      get_brand_group item = some group →
      ((dlookup s.custom_brands group).getD []).count b ≤ 1 →
      ((dlookup (savePreference item u b s).custom_brands group).getD []).count b = 1 ∧
      savePreference item u b (savePreference item u b s) = savePreference item u b s ∧
      dlookup (savePreference item u b s).item_preferences item =
        some [("unit", u), ("brand", b)]) ∧
    (get_brand_group item = none →
      (savePreference item u b s).custom_brands = s.custom_brands ∧
      dlookup (savePreference item u b s).item_preferences item =
        some [("unit", u), ("brand", b)]) := by
  constructor
  · intro static group hstatic hb hbs hgroup hcount
    have hcond : b ≠ "" ∧ (dlookup ITEM_BRANDS item).isSome ∧
        b ∉ (dlookup ITEM_BRANDS item).getD [] := by
      rw [hstatic]
      exact ⟨hb, rfl, hbs⟩
    have hprefs1 : (savePreference item u b s).item_preferences =
        dinsert s.item_preferences item [("unit", u), ("brand", b)] := by
      unfold savePreference
      rw [if_pos hcond, hgroup]
    have hpl : dlookup (savePreference item u b s).item_preferences item =
        some [("unit", u), ("brand", b)] := by
      rw [hprefs1]
      exact dlookup_dinsert_self _ _ _
    have hcount1 : ((dlookup (savePreference item u b s).custom_brands group).getD []).count b
        = 1 := by
      unfold savePreference
      rw [if_pos hcond, hgroup]
      cases hcb : dlookup s.custom_brands group with
      | none => simp [hcb, dlookup_dinsert_self]
      | some cur =>
        rw [hcb] at hcount
        simp only [Option.getD_some] at hcount
        by_cases hmem : b ∈ cur
        · have h1 : 0 < cur.count b := List.count_pos_iff.mpr hmem
          simp only [hcb, Option.isSome_some, if_true, Option.getD_some, if_pos hmem]
          omega
        · simp only [hcb, Option.isSome_some, if_true, Option.getD_some, if_neg hmem]
          rw [dlookup_dinsert_self]
          simp only [Option.getD_some, List.count_append]
          rw [List.count_eq_zero.mpr hmem]
          simp
    have hbmem : b ∈ (dlookup (savePreference item u b s).custom_brands group).getD [] := by
      by_contra hnot
      have h2 := hcount1
      rw [List.count_eq_zero.mpr hnot] at h2
      simp at h2
    refine ⟨hcount1, ?_, hpl⟩
    obtain ⟨l, hl⟩ : ∃ l, dlookup (savePreference item u b s).custom_brands group = some l := by
      cases hq : dlookup (savePreference item u b s).custom_brands group with
      | none =>
        rw [hq] at hbmem
        simp at hbmem
      | some l => exact ⟨l, rfl⟩
    have hbl : b ∈ l := by
      rw [hl] at hbmem
      simpa using hbmem
    conv_lhs => rw [savePreference]
    rw [if_pos hcond, hgroup]
    simp only [dinsert_of_dlookup_eq _ _ _ hpl, hl, Option.isSome_some, if_true,
      Option.getD_some, if_pos hbl]
  · intro hgroup
    unfold savePreference
    by_cases hcond : b ≠ "" ∧ (dlookup ITEM_BRANDS item).isSome ∧
        b ∉ (dlookup ITEM_BRANDS item).getD []
    · rw [if_pos hcond, hgroup]
      exact ⟨rfl, dlookup_dinsert_self _ _ _⟩
    · rw [if_neg hcond]
      exact ⟨rfl, dlookup_dinsert_self _ _ _⟩

/-- Witness for C3 at the spec's own example: saving NewBrand for Cheddar
Cheese (group "cheese") from the empty state stores it exactly once, and a
second identical save is the identity; Eggs (Large) has predefined brands but
no group, so custom_brands stays empty. -/
theorem c3_save_preference_witness :
    (dlookup ITEM_BRANDS "Cheddar Cheese" =
        some ["", "Tillamook", "Kerrygold", "Cabot", "Boar\x27s Head", "Kirkland"] ∧
      "NewBrand" ≠ "" ∧
      "NewBrand" ∉ ["", "Tillamook", "Kerrygold", "Cabot", "Boar\x27s Head", "Kirkland"] ∧
      get_brand_group "Cheddar Cheese" = some "cheese" ∧
      ((dlookup (AppState.mk [] [] [] [] []).custom_brands "cheese").getD []).count
          "NewBrand" ≤ 1) ∧
    (((dlookup (savePreference "Cheddar Cheese" "lb" "NewBrand"
          (AppState.mk [] [] [] [] [])).custom_brands "cheese").getD []).count "NewBrand" = 1 ∧
      savePreference "Cheddar Cheese" "lb" "NewBrand"
          (savePreference "Cheddar Cheese" "lb" "NewBrand" (AppState.mk [] [] [] [] [])) =
        savePreference "Cheddar Cheese" "lb" "NewBrand" (AppState.mk [] [] [] [] []) ∧
      dlookup (savePreference "Cheddar Cheese" "lb" "NewBrand"
          (AppState.mk [] [] [] [] [])).item_preferences "Cheddar Cheese" =
        some [("unit", "lb"), ("brand", "NewBrand")]) ∧
    ((savePreference "Eggs (Large)" "dozen" "FarmFresh"
          (AppState.mk [] [] [] [] [])).custom_brands = [] ∧
      dlookup (savePreference "Eggs (Large)" "dozen" "FarmFresh"
          (AppState.mk [] [] [] [] [])).item_preferences "Eggs (Large)" =
        some [("unit", "dozen"), ("brand", "FarmFresh")]) :=
  ⟨⟨by decide, by decide, by decide, by decide, by decide⟩,
    (c3_save_preference (AppState.mk [] [] [] [] []) "Cheddar Cheese" "lb" "NewBrand").1
      ["", "Tillamook", "Kerrygold", "Cabot", "Boar\x27s Head", "Kirkland"] "cheese"
      (by decide) (by decide) (by decide) (by decide) (by decide),
    (c3_save_preference (AppState.mk [] [] [] [] []) "Eggs (Large)" "dozen" "FarmFresh").2
      (by decide)⟩

/-! ## Claim C7 -/

/-- C7 counterexample: with HiddenItems = \x7b"Apples"\x7d, hiding "Apples" is a
no-op and restoring then removes it, so hide-then-restore does not return
HiddenItems to its prior state; and restoring an item absent from HiddenItems
is not a no-op but a KeyError. -/
theorem c7_round_trip_counterexample :
    (restoreItem "Apples" (hideItem "Apples" (AppState.mk [] [] ["Apples"] [] [])) =
        .ok (AppState.mk [] [] [] [] []) ∧
      (AppState.mk [] [] [] [] []) ≠ (AppState.mk [] [] ["Apples"] [] [])) ∧
    restoreItem "Bananas" (AppState.mk [] [] ["Apples"] [] []) = .error () :=
  ⟨⟨by rfl, by decide⟩, by rfl⟩

/-- C7 amended: hide-then-restore restores the prior state when the item was
not already hidden; hiding an already-hidden item is a no-op; but restoring an
item absent from HiddenItems raises a KeyError (set.remove) rather than being
a no-op — the UI only offers restore buttons for currently hidden items. -/
theorem c7_hide_restore (s : AppState) (item : String) :
    (item ∉ s.hidden_items → restoreItem item (hideItem item s) = .ok s) ∧
    (item ∈ s.hidden_items → hideItem item s = s) ∧
    (item ∉ s.hidden_items → restoreItem item s = .error ()) := by
  refine ⟨?_, ?_, ?_⟩
  · intro h
    unfold hideItem restoreItem
    rw [if_neg h]
    have hmem : item ∈ s.hidden_items ++ [item] := by simp
    simp only [hmem, if_pos hmem]
    rw [List.erase_append_right _ h]
    simp
  · intro h
    unfold hideItem
    rw [if_pos h]
  · intro h
    unfold restoreItem
    rw [if_neg h]

/-- Witness for the amended C7: hiding then restoring "Apples" from the empty
state returns the empty state. -/
theorem c7_hide_restore_witness :
    "Apples" ∉ (AppState.mk [] [] [] [] []).hidden_items ∧
    restoreItem "Apples" (hideItem "Apples" (AppState.mk [] [] [] [] [])) =
      .ok (AppState.mk [] [] [] [] []) ∧
    restoreItem "Apples" (AppState.mk [] [] [] [] []) = .error () :=
  ⟨by decide,
    (c7_hide_restore (AppState.mk [] [] [] [] []) "Apples").1 (by decide),
    (c7_hide_restore (AppState.mk [] [] [] [] []) "Apples").2.2 (by decide)⟩

/-! ## Claim C9 -/

/-- Source handler for the plus button on cart row i: qty += 1. -/
def incAt (l : List CartEntry) (i : Nat) : List CartEntry :=
  match l[i]? with
  | some e => l.set i { e with qty := e.qty + 1 }
  | none => l

/-- Source handler for the minus button on cart row i: qty -= 1, guarded by
qty > 1. -/
def decAt (l : List CartEntry) (i : Nat) : List CartEntry :=
  match l[i]? with
  | some e => if e.qty > 1 then l.set i { e with qty := e.qty - 1 } else l
  | none => l

/-- Cart states reachable through the source's cart-mutating handlers: the
empty initial list, the master-list add (qty literal 1), the custom-item add
(qty from a number_input with min_value=1), the plus and minus buttons, the
per-row remove button, and the two clear buttons. -/
inductive CartReachable : List CartEntry → Prop
  | init : CartReachable []
  | masterAdd (l : List CartEntry) (item unit brand : String) :
      CartReachable l → CartReachable (l ++ [⟨item, 1, unit, brand⟩])
  | customAdd (l : List CartEntry) (item unit : String) (qty : Nat) (hq : 1 ≤ qty) :
      CartReachable l → CartReachable (l ++ [⟨item, qty, unit, ""⟩])
  | inc (l : List CartEntry) (i : Nat) : CartReachable l → CartReachable (incAt l i)
  | dec (l : List CartEntry) (i : Nat) : CartReachable l → CartReachable (decAt l i)
  | removeAt (l : List CartEntry) (i : Nat) : CartReachable l → CartReachable (l.eraseIdx i)
  | clear (l : List CartEntry) : CartReachable l → CartReachable []

/-- C9: in every reachable cart state, every entry's quantity is at least 1 —
adds start at 1 (or the form's minimum of 1), increment adds 1, and decrement
only fires when the quantity exceeds 1. -/
theorem c9_qty_invariant (l : List CartEntry) (h : CartReachable l) :
    ∀ e ∈ l, 1 ≤ e.qty := by
  induction h with
  | init => intro e he; simp at he
  | masterAdd l item unit brand _ ih =>
    intro e he
    rcases List.mem_append.mp he with he | he
    · exact ih e he
    · rw [List.mem_singleton] at he
      subst he
      exact le_refl 1
  | customAdd l item unit qty hq _ ih =>
    intro e he
    rcases List.mem_append.mp he with he | he
    · exact ih e he
    · rw [List.mem_singleton] at he
      subst he
      exact hq
  | inc l i _ ih =>
    intro e he
    unfold incAt at he
    cases hg : l[i]? with
    | none => rw [hg] at he; exact ih e he
    | some e0 =>
      rw [hg] at he
      rcases List.mem_or_eq_of_mem_set he with he | he
      · exact ih e he
      · subst he
        simp only []
        omega
  | dec l i _ ih =>
    intro e he
    unfold decAt at he
    cases hg : l[i]? with
    | none => rw [hg] at he; exact ih e he
    | some e0 =>
      rw [hg] at he
      dsimp only at he
      by_cases hq : e0.qty > 1
      · rw [if_pos hq] at he
        rcases List.mem_or_eq_of_mem_set he with he | he
        · exact ih e he
        · subst he
          simp only []
          omega
      · rw [if_neg hq] at he
        exact ih e he
  | removeAt l i _ ih =>
    intro e he
    exact ih e (List.mem_of_mem_eraseIdx he)
  | clear l _ _ =>
    intro e he
    simp at he

/-- Witness for C9 at a concrete reachable state: add Apples from the master
list, increment it, then decrement it; the resulting singleton cart has
quantity 1. -/
theorem c9_qty_invariant_witness :
    CartReachable (decAt (incAt ([] ++ [⟨"Apples", 1, "lb", ""⟩]) 0) 0) ∧
    ∀ e ∈ decAt (incAt ([] ++ [⟨"Apples", 1, "lb", ""⟩]) 0) 0, 1 ≤ e.qty :=
  have hr : CartReachable (decAt (incAt ([] ++ [⟨"Apples", 1, "lb", ""⟩]) 0) 0) :=
    .dec _ 0 (.inc _ 0 (.masterAdd [] "Apples" "lb" "" .init))
  ⟨hr, c9_qty_invariant _ hr⟩

/-! ## JSON payloads and the two import handlers -/

/-- JSON values, the result of a successful json.loads. -/
inductive JVal where
  | null
  | bool (b : Bool)
  | num (n : Int)
  | str (s : String)
  | arr (elems : List JVal)
  | obj (fields : List (String × JVal))

/-- Python exceptions the import code can raise. -/
inductive PyErr where
  | typeError
  | keyError
  | attrError
deriving DecidableEq

/-- Outcome of an import handler run: success (with the new state), the
handler's own caught-error message (the distinct invalid-input signal), an
exception that escapes the handler (session state keeps any mutations already
applied), or a run that stores a value outside this typed state model (no
theorem below relies on that constructor). -/
inductive ImportOutcome where
  | ok (s : AppState)
  | invalidInput (s : AppState)
  | uncaught (s : AppState)
  | illTyped (s : AppState)

/-- Python substring test needle in hay for strings. -/
def strContains (hay needle : String) : Bool :=
  (hay.splitOn needle).length > 1 || needle == ""

/-- Python membership test k in x: key membership for dicts, element
membership for lists, substring for strings, TypeError otherwise. -/
def jContains (x : JVal) (k : String) : Except PyErr Bool :=
  match x with
  | .obj fields => .ok (fields.any (fun p => p.1 == k))
  | .arr elems => .ok (elems.any (fun v => match v with | .str t => t == k | _ => false))
  | .str t => .ok (strContains t k)
  | _ => .error .typeError

/-- Python indexing x[k] with a string key: dict lookup (KeyError when the key
is absent), TypeError for every other value. -/
def jGet (x : JVal) (k : String) : Except PyErr JVal :=
  match x with
  | .obj fields =>
    match dlookup fields k with
    | some v => .ok v
    | none => .error .keyError
  | _ => .error .typeError

/-- Both import handlers catch json.JSONDecodeError and KeyError and report
the distinct invalid-input message; every other exception escapes. -/
def errOutcome (e : PyErr) (s : AppState) : ImportOutcome :=
  match e with
  | .keyError => .invalidInput s
  | _ => .uncaught s

/-- View of a JSON object all of whose field values are strings as a typed
record; none when the stored value would lie outside this typed state model. -/
def decodeRecord (v : JVal) : Option PrefRecord :=
  match v with
  | .obj fields =>
    fields.mapM (fun p => match p.2 with | .str t => some (p.1, t) | _ => none)
  | _ => none

/-- View of an imported preferences section as a typed PrefsMap. -/
def decodePrefsWhole (v : JVal) : Option PrefsMap :=
  match v with
  | .obj fields => fields.mapM (fun p => (decodeRecord p.2).map (fun r => (p.1, r)))
  | _ => none

/-- View of a JSON array of strings as a string list. -/
def decodeStrList (v : JVal) : Option (List String) :=
  match v with
  | .arr elems => elems.mapM (fun e => match e with | .str t => some t | _ => none)
  | _ => none

/-- View of an imported custom_brands section as a typed BrandsMap. -/
def decodeBrandsWhole (v : JVal) : Option BrandsMap :=
  match v with
  | .obj fields => fields.mapM (fun p => (decodeStrList p.2).map (fun l => (p.1, l)))
  | _ => none

/-- View of an imported custom_items section as a typed ItemsMap. -/
def decodeItemsWhole (v : JVal) : Option ItemsMap :=
  match v with
  | .obj fields => fields.mapM (fun p => (decodeRecord p.2).map (fun m => (p.1, m)))
  | _ => none

/-- Python set(v), restricted to the typed model: a list of strings is
deduplicated, a string yields its characters, a dict yields its keys; lists
holding unhashable values (lists/dicts) raise TypeError, lists holding other
hashable non-strings leave the typed model; non-iterable values raise
TypeError. A Python set is unordered; first-occurrence order is a
representative. -/
def pySet (v : JVal) : Except PyErr (Option (List String)) :=
  match v with
  | .arr elems =>
    if elems.any (fun e => match e with | .arr _ => true | .obj _ => true | _ => false) then
      .error .typeError
    else
      match elems.mapM (fun e => match e with | .str t => some t | _ => none) with
      | some ts => .ok (some (ts.foldl appendIfNew []))
      | none => .ok none
  | .str t => .ok (some ((t.toList.map (fun c => c.toString)).foldl appendIfNew []))
  | .obj fields => .ok (some ((fields.map (fun p => p.1)).foldl appendIfNew []))
  | _ => .error .typeError

/-- Replace-mode import, preferences section: when "preferences" is present,
wholesale-assign the imported value (the assignment itself cannot raise). -/
def replSectionPrefs (imported : JVal) (s : AppState) : Except ImportOutcome AppState :=
  match jContains imported "preferences" with
  | .error e => .error (errOutcome e s)
  | .ok false => .ok s
  | .ok true =>
    match jGet imported "preferences" with
    | .error e => .error (errOutcome e s)
    | .ok v =>
      match decodePrefsWhole v with
      | some p => .ok { s with item_preferences := p }
      | none => .error (.illTyped s)

/-- Replace-mode import, custom_brands section. -/
def replSectionBrands (imported : JVal) (s : AppState) : Except ImportOutcome AppState :=
  match jContains imported "custom_brands" with
  | .error e => .error (errOutcome e s)
  | .ok false => .ok s
  | .ok true =>
    match jGet imported "custom_brands" with
    | .error e => .error (errOutcome e s)
    | .ok v =>
      match decodeBrandsWhole v with
      | some b => .ok { s with custom_brands := b }
      | none => .error (.illTyped s)

/-- Replace-mode import, hidden_items section: set(imported["hidden_items"])
can raise TypeError, which the handler does not catch. -/
def replSectionHidden (imported : JVal) (s : AppState) : Except ImportOutcome AppState :=
  match jContains imported "hidden_items" with
  | .error e => .error (errOutcome e s)
  | .ok false => .ok s
  | .ok true =>
    match jGet imported "hidden_items" with
    | .error e => .error (errOutcome e s)
    | .ok v =>
      match pySet v with
      | .error e => .error (errOutcome e s)
      | .ok (some hs) => .ok { s with hidden_items := hs }
      | .ok none => .error (.illTyped s)

/-- Replace-mode import, custom_items section. -/
def replSectionItems (imported : JVal) (s : AppState) : Except ImportOutcome AppState :=
  match jContains imported "custom_items" with
  | .error e => .error (errOutcome e s)
  | .ok false => .ok s
  | .ok true =>
    match jGet imported "custom_items" with
    | .error e => .error (errOutcome e s)
    | .ok v =>
      match decodeItemsWhole v with
      | some m => .ok { s with custom_items := m }
      | none => .error (.illTyped s)

/-- Source handler for the Import Preferences uploader (replace mode): parse
the payload — a parse failure is caught and reported as the distinct
invalid-input message with the state untouched — then wholesale-assign each of
the four sections that is present, in source order. An exception raised
mid-way escapes with the earlier sections' assignments already applied. -/
def replaceImport (payload : Option JVal) (s : AppState) : ImportOutcome :=
  match payload with
  | none => .invalidInput s
  | some imported =>
    match replSectionPrefs imported s with
    | .error o => o
    | .ok s1 =>
      match replSectionBrands imported s1 with
      | .error o => o
      | .ok s2 =>
        match replSectionHidden imported s2 with
        | .error o => o
        | .ok s3 =>
          match replSectionItems imported s3 with
          | .error o => o
          | .ok s4 => .ok s4

/-- Result of one of apply_scan_import's per-section loops: finished, raised
after the mutations already applied, or stored a value outside this typed
model. -/
inductive LoopResult (α : Type) where
  | ok (a : α)
  | err (e : PyErr) (a : α)
  | outOfModel (a : α)

/-- The merge-mode condition on an imported preference record:
isinstance(prefs, dict) and "unit" in prefs and "brand" in prefs. -/
def prefRecordOK (v : JVal) : Bool :=
  match v with
  | .obj fields =>
    (fields.any (fun p => p.1 == "unit")) && (fields.any (fun p => p.1 == "brand"))
  | _ => false

/-- Merge-mode preferences loop: each record that passes prefRecordOK
overwrites (or creates) the item's preference; others are skipped. -/
def scanPrefsLoop (prefs : PrefsMap) : List (String × JVal) → LoopResult PrefsMap
  | [] => .ok prefs
  | (item, record) :: rest =>
    if prefRecordOK record then
      match decodeRecord record with
      | some r => scanPrefsLoop (dinsert prefs item r) rest
      | none => .outOfModel prefs
    else scanPrefsLoop prefs rest

/-- Merge-mode custom_brands loop: each imported group's list is concatenated
after the existing list and deduplicated keeping first occurrences
(dict.fromkeys); a non-list value raises TypeError at the concatenation, a
list holding unhashable values raises TypeError inside dict.fromkeys. -/
def scanBrandsLoop (cb : BrandsMap) : List (String × JVal) → LoopResult BrandsMap
  | [] => .ok cb
  | (group, brands) :: rest =>
    match brands with
    | .arr elems =>
      if elems.any (fun e => match e with | .arr _ => true | .obj _ => true | _ => false) then
        .err .typeError cb
      else
        match elems.mapM (fun e => match e with | .str t => some t | _ => none) with
        | some bs =>
          scanBrandsLoop
            (dinsert cb group ((((dlookup cb group).getD []) ++ bs).foldl appendIfNew [])) rest
        | none => .outOfModel cb
    | _ => .err .typeError cb

/-- All item names occurring anywhere in MASTER_LIST (the master_items set
apply_scan_import builds). -/
def masterItemNames : List String :=
  (MASTER_LIST.map (fun p => p.2.map (fun q => q.1))).flatten

/-- Merge-mode custom_items inner loop over one category's imported items: an
item is stored only when its name is not in masterItemNames. -/
def itemsInner (m : List (String × String)) :
    List (String × JVal) → Option (List (String × String))
  | [] => some m
  | (item_name, unit) :: rest =>
    if masterItemNames.contains item_name then itemsInner m rest
    else
      match unit with
      | .str t => itemsInner (dinsert m item_name t) rest
      | _ => none

/-- Merge-mode custom_items outer loop: the category key is created (empty)
before its items are examined; a non-dict items value then raises
AttributeError with the key already inserted. -/
def scanItemsLoop (ci : ItemsMap) : List (String × JVal) → LoopResult ItemsMap
  | [] => .ok ci
  | (category, items) :: rest =>
    let ci1 := if (dlookup ci category).isSome then ci else dinsert ci category []
    match items with
    | .obj fields =>
      match itemsInner ((dlookup ci1 category).getD []) fields with
      | some m => scanItemsLoop (dinsert ci1 category m) rest
      | none => .outOfModel ci1
    | _ => .err .attrError ci1

/-- Merge-mode import, preferences section of apply_scan_import. -/
def scanSectionPrefs (scanned : JVal) (s : AppState) : Except ImportOutcome AppState :=
  match jContains scanned "preferences" with
  | .error e => .error (errOutcome e s)
  | .ok false => .ok s
  | .ok true =>
    match jGet scanned "preferences" with
    | .error e => .error (errOutcome e s)
    | .ok v =>
      match v with
      | .obj fields =>
        match scanPrefsLoop s.item_preferences fields with
        | .ok p => .ok { s with item_preferences := p }
        | .err e p => .error (errOutcome e { s with item_preferences := p })
        | .outOfModel p => .error (.illTyped { s with item_preferences := p })
      | _ => .error (errOutcome .attrError s)

/-- Merge-mode import, custom_brands section of apply_scan_import. -/
def scanSectionBrands (scanned : JVal) (s : AppState) : Except ImportOutcome AppState :=
  match jContains scanned "custom_brands" with
  | .error e => .error (errOutcome e s)
  | .ok false => .ok s
  | .ok true =>
    match jGet scanned "custom_brands" with
    | .error e => .error (errOutcome e s)
    | .ok v =>
      match v with
      | .obj fields =>
        match scanBrandsLoop s.custom_brands fields with
        | .ok b => .ok { s with custom_brands := b }
        | .err e b => .error (errOutcome e { s with custom_brands := b })
        | .outOfModel b => .error (.illTyped { s with custom_brands := b })
      | _ => .error (errOutcome .attrError s)

/-- Merge-mode import, custom_items section of apply_scan_import. -/
def scanSectionItems (scanned : JVal) (s : AppState) : Except ImportOutcome AppState :=
  match jContains scanned "custom_items" with
  | .error e => .error (errOutcome e s)
  | .ok false => .ok s
  | .ok true =>
    match jGet scanned "custom_items" with
    | .error e => .error (errOutcome e s)
    | .ok v =>
      match v with
      | .obj fields =>
        match scanItemsLoop s.custom_items fields with
        | .ok m => .ok { s with custom_items := m }
        | .err e m => .error (errOutcome e { s with custom_items := m })
        | .outOfModel m => .error (.illTyped { s with custom_items := m })
      | _ => .error (errOutcome .attrError s)

/-- Source function apply_scan_import together with its callers' error
handling (merge mode): parse — a parse failure is caught by the caller and
reported as the distinct invalid-input message with the state untouched —
then merge the three sections in source order. -/
def applyScanImport (payload : Option JVal) (s : AppState) : ImportOutcome :=
  match payload with
  | none => .invalidInput s
  | some scanned =>
    match scanSectionPrefs scanned s with
    | .error o => o
    | .ok s1 =>
      match scanSectionBrands scanned s1 with
      | .error o => o
      | .ok s2 =>
        match scanSectionItems scanned s2 with
        | .error o => o
        | .ok s3 => .ok s3

/-! ## Claim C4 -/

/-- C4 counterexample: a parseable payload whose top level is the number 5 is
rejected in both modes only by an uncaught TypeError — not by the handlers'
distinct invalid-input signal — and the parseable payload
\x7b"preferences": \x7b\x7d, "hidden_items": 5\x7d in replace mode first overwrites
item_preferences and only then raises an uncaught TypeError in set(), leaving
a partial mutation behind: the failure is neither signalled as invalid input
nor atomic. -/
theorem c4_malformed_counterexample :
    (replaceImport (some (.num 5))
        (AppState.mk [("Apples", [("unit", "lb"), ("brand", "Fuji")])] [] [] [] []) =
      .uncaught (AppState.mk [("Apples", [("unit", "lb"), ("brand", "Fuji")])] [] [] [] []) ∧
     applyScanImport (some (.num 5))
        (AppState.mk [("Apples", [("unit", "lb"), ("brand", "Fuji")])] [] [] [] []) =
      .uncaught (AppState.mk [("Apples", [("unit", "lb"), ("brand", "Fuji")])] [] [] [] [])) ∧
    (replaceImport (some (.obj [("preferences", .obj []), ("hidden_items", .num 5)]))
        (AppState.mk [("Apples", [("unit", "lb"), ("brand", "Fuji")])] [] [] [] []) =
      .uncaught (AppState.mk [] [] [] [] []) ∧
     ([] : PrefsMap) ≠ [("Apples", [("unit", "lb"), ("brand", "Fuji")])]) :=
  ⟨⟨rfl, rfl⟩, rfl, by decide⟩

/-- C4 amended: in both modes a payload that fails JSON parsing is rejected
atomically with the distinct invalid-input signal and the state untouched;
but a payload that parses yet lacks the required top-level structure instead
raises an uncaught error, possibly after earlier sections were already
applied (see the counterexample). -/
theorem c4_parse_failure_atomic (s : AppState) :
    replaceImport none s = ImportOutcome.invalidInput s ∧
    applyScanImport none s = ImportOutcome.invalidInput s :=
  ⟨rfl, rfl⟩

/-! ## Claim C5 -/

/-- Looking up a category after the ensure-key step sees the same contents as
before (an absent key is created empty). -/
theorem ensure_key_lookup (ci : ItemsMap) (cat : String) :
    (dlookup (if (dlookup ci cat).isSome then ci else dinsert ci cat []) cat).getD [] =
      (dlookup ci cat).getD [] := by
  cases h : dlookup ci cat with
  | some m => simp [h]
  | none => simp [h, dlookup_dinsert_self]

theorem itemsInner_total (fields : List (String × JVal)) :
    ∀ m, (∀ p ∈ fields, ∃ t, p.2 = JVal.str t) → ∃ m', itemsInner m fields = some m' := by
  induction fields with
  | nil => exact fun m _ => ⟨m, rfl⟩
  | cons p rest ih =>
    intro m hwf
    obtain ⟨n, v⟩ := p
    obtain ⟨t, ht⟩ := hwf (n, v) (List.mem_cons_self _ _)
    simp only at ht
    subst ht
    have hwfr := fun q hq => hwf q (List.mem_cons_of_mem _ hq)
    by_cases hn : masterItemNames.contains n = true
    · obtain ⟨m', hm'⟩ := ih m hwfr
      refine ⟨m', ?_⟩
      simp only [itemsInner]
      rw [if_pos hn]
      exact hm'
    · obtain ⟨m', hm'⟩ := ih (dinsert m n t) hwfr
      refine ⟨m', ?_⟩
      simp only [itemsInner]
      rw [if_neg hn]
      exact hm'

theorem itemsInner_preserve (fields : List (String × JVal)) (name : String) :
    ∀ m m', name ∉ fields.map Prod.fst → itemsInner m fields = some m' →
      dlookup m' name = dlookup m name := by
  induction fields with
  | nil =>
    intro m m' _ h
    simp only [itemsInner, Option.some.injEq] at h
    rw [h]
  | cons p rest ih =>
    intro m m' hni h
    obtain ⟨n, v⟩ := p
    rw [List.map_cons] at hni
    have hnn : n ≠ name := fun he => hni (by simp [he])
    have hrest : name ∉ rest.map Prod.fst := fun hr => hni (List.mem_cons_of_mem _ hr)
    simp only [itemsInner] at h
    by_cases hn : masterItemNames.contains n = true
    · rw [if_pos hn] at h
      exact ih m m' hrest h
    · rw [if_neg hn] at h
      cases hv : v with
      | str t =>
        rw [hv] at h
        rw [ih (dinsert m n t) m' hrest h]
        exact dlookup_dinsert_ne m n name t (Ne.symm hnn)
      | null => rw [hv] at h; exact Option.noConfusion h
      | bool b => rw [hv] at h; exact Option.noConfusion h
      | num k => rw [hv] at h; exact Option.noConfusion h
      | arr es => rw [hv] at h; exact Option.noConfusion h
      | obj fs => rw [hv] at h; exact Option.noConfusion h

theorem itemsInner_lookup (fields : List (String × JVal)) (name u : String) :
    ∀ m, (fields.map Prod.fst).Nodup → (name, JVal.str u) ∈ fields →
      (∀ p ∈ fields, ∃ t, p.2 = JVal.str t) →
      ∃ m', itemsInner m fields = some m' ∧
        (masterItemNames.contains name = true → dlookup m' name = dlookup m name) ∧
        (masterItemNames.contains name = false → dlookup m' name = some u) := by
  induction fields with
  | nil =>
    intro m _ hmem _
    simp at hmem
  | cons p rest ih =>
    intro m hnd hmem hwf
    obtain ⟨n, v⟩ := p
    rw [List.map_cons] at hnd
    have hcons := List.nodup_cons.mp hnd
    have hnn := hcons.1
    have hndr := hcons.2
    have hwfr := fun q hq => hwf q (List.mem_cons_of_mem _ hq)
    rcases List.mem_cons.mp hmem with heq | hmem'
    · injection heq with h1 h2
      subst h1
      subst h2
      by_cases hmaster : masterItemNames.contains name = true
      · obtain ⟨m', hm'⟩ := itemsInner_total rest m hwfr
        refine ⟨m', ?_, ?_, ?_⟩
        · simp only [itemsInner]
          rw [if_pos hmaster]
          exact hm'
        · intro _
          exact itemsInner_preserve rest name m m' hnn hm'
        · intro hf
          rw [hmaster] at hf
          cases hf
      · obtain ⟨m', hm'⟩ := itemsInner_total rest (dinsert m name u) hwfr
        refine ⟨m', ?_, ?_, ?_⟩
        · simp only [itemsInner]
          rw [if_neg hmaster]
          exact hm'
        · intro ht
          exact absurd ht hmaster
        · intro _
          rw [itemsInner_preserve rest name _ m' hnn hm', dlookup_dinsert_self]
    · have hname_in : name ∈ rest.map Prod.fst :=
        List.mem_map.mpr ⟨(name, JVal.str u), hmem', rfl⟩
      have hne : n ≠ name := fun he => hnn (he ▸ hname_in)
      obtain ⟨t, ht⟩ := hwf (n, v) (List.mem_cons_self _ _)
      simp only at ht
      subst ht
      by_cases hn : masterItemNames.contains n = true
      · obtain ⟨m', hm', hp1, hp2⟩ := ih m hndr hmem' hwfr
        refine ⟨m', ?_, hp1, hp2⟩
        simp only [itemsInner]
        rw [if_pos hn]
        exact hm'
      · obtain ⟨m', hm', hp1, hp2⟩ := ih (dinsert m n t) hndr hmem' hwfr
        refine ⟨m', ?_, ?_, hp2⟩
        · simp only [itemsInner]
          rw [if_neg hn]
          exact hm'
        · intro hmaster
          rw [hp1 hmaster]
          exact dlookup_dinsert_ne m n name t (Ne.symm hne)

/-- A merge-mode payload whose only key is custom_items skips the
preferences section. -/
theorem scanSectionPrefs_only_items (v : JVal) (s : AppState) :
    scanSectionPrefs (.obj [("custom_items", v)]) s = .ok s := rfl

/-- A merge-mode payload whose only key is custom_items skips the
custom_brands section. -/
theorem scanSectionBrands_only_items (v : JVal) (s : AppState) :
    scanSectionBrands (.obj [("custom_items", v)]) s = .ok s := rfl

/-- Evaluation of the custom_items section on a one-key payload holding an
object. -/
theorem scanSectionItems_obj (fields : List (String × JVal)) (s : AppState) :
    scanSectionItems (.obj [("custom_items", .obj fields)]) s =
      (match scanItemsLoop s.custom_items fields with
       | .ok m => .ok { s with custom_items := m }
       | .err e m => .error (errOutcome e { s with custom_items := m })
       | .outOfModel m => .error (.illTyped { s with custom_items := m })) := rfl

/-- C5: in a merge-mode import, an imported custom item whose name exists
anywhere in the static MASTER_LIST is not added (the category's entry for
that name is exactly what it was before), while an imported item name absent
from the whole catalog is stored under its imported category, the category
key being created when absent. Stated for a payload with one imported
category whose items are well-formed (string units, distinct names). -/
theorem c5_scan_custom_items (s : AppState) (cat name u : String)
    (fields : List (String × JVal))
    (hnd : (fields.map Prod.fst).Nodup)
    (hmem : (name, JVal.str u) ∈ fields)
    (hwf : ∀ p ∈ fields, ∃ t, p.2 = JVal.str t) :
    ∃ s', applyScanImport (some (.obj [("custom_items", .obj [(cat, .obj fields)])])) s
        = .ok s' ∧
      ∃ m, dlookup s'.custom_items cat = some m ∧
        (masterItemNames.contains name = true →
          dlookup m name = dlookup ((dlookup s.custom_items cat).getD []) name) ∧
        (masterItemNames.contains name = false → dlookup m name = some u) := by
  obtain ⟨m', hrun, h1, h2⟩ :=
    itemsInner_lookup fields name u ((dlookup s.custom_items cat).getD []) hnd hmem hwf
  cases hci : dlookup s.custom_items cat with
  | some m0 =>
    rw [hci] at hrun
    simp only [Option.getD_some] at hrun
    have hloop : scanItemsLoop s.custom_items [(cat, .obj fields)] =
        .ok (dinsert s.custom_items cat m') := by
      simp only [scanItemsLoop, hci, Option.isSome_some, if_true, Option.getD_some, hrun]
    refine ⟨{ s with custom_items := dinsert s.custom_items cat m' }, ?_, m', ?_, ?_, h2⟩
    · simp only [applyScanImport, scanSectionPrefs_only_items, scanSectionBrands_only_items,
        scanSectionItems_obj, hloop]
    · exact dlookup_dinsert_self _ _ _
    · intro hm
      rw [h1 hm, hci]
  | none =>
    rw [hci] at hrun
    simp only [Option.getD_none] at hrun
    have hloop : scanItemsLoop s.custom_items [(cat, .obj fields)] =
        .ok (dinsert (dinsert s.custom_items cat []) cat m') := by
      simp only [scanItemsLoop, hci, Option.isSome_none, Bool.false_eq_true, if_false,
        dlookup_dinsert_self, Option.getD_some, hrun]
    refine ⟨{ s with custom_items := dinsert (dinsert s.custom_items cat []) cat m' },
      ?_, m', ?_, ?_, h2⟩
    · simp only [applyScanImport, scanSectionPrefs_only_items, scanSectionBrands_only_items,
        scanSectionItems_obj, hloop]
    · exact dlookup_dinsert_self _ _ _
    · intro hm
      rw [h1 hm, hci]

/-- Witness for C5 at a concrete merge-mode import: "Apples" collides with the
catalog and is not added, "Zucchini Bread" does not and is added under the
newly created category. -/
theorem c5_scan_custom_items_witness :
    ((([("Apples", JVal.str "lb"), ("Zucchini Bread", JVal.str "loaf")].map
        Prod.fst).Nodup ∧
      masterItemNames.contains "Apples" = true ∧
      masterItemNames.contains "Zucchini Bread" = false) ∧
    (∃ s', applyScanImport (some (.obj [("custom_items", .obj [("Bakery Extras",
          .obj [("Apples", JVal.str "lb"), ("Zucchini Bread", JVal.str "loaf")])])]))
        (AppState.mk [] [] [] [] []) = .ok s' ∧
      ∃ m, dlookup s'.custom_items "Bakery Extras" = some m ∧
        (masterItemNames.contains "Apples" = true →
          dlookup m "Apples" =
            dlookup ((dlookup (AppState.mk [] [] [] [] []).custom_items
              "Bakery Extras").getD []) "Apples") ∧
        (masterItemNames.contains "Apples" = false → dlookup m "Apples" = some "lb")) ∧
    (∃ s', applyScanImport (some (.obj [("custom_items", .obj [("Bakery Extras",
          .obj [("Apples", JVal.str "lb"), ("Zucchini Bread", JVal.str "loaf")])])]))
        (AppState.mk [] [] [] [] []) = .ok s' ∧
      ∃ m, dlookup s'.custom_items "Bakery Extras" = some m ∧
        (masterItemNames.contains "Zucchini Bread" = true →
          dlookup m "Zucchini Bread" =
            dlookup ((dlookup (AppState.mk [] [] [] [] []).custom_items
              "Bakery Extras").getD []) "Zucchini Bread") ∧
        (masterItemNames.contains "Zucchini Bread" = false →
          dlookup m "Zucchini Bread" = some "loaf"))) :=
  ⟨⟨by decide, by decide, by decide⟩,
    c5_scan_custom_items (AppState.mk [] [] [] [] []) "Bakery Extras" "Apples" "lb"
      [("Apples", JVal.str "lb"), ("Zucchini Bread", JVal.str "loaf")] (by decide)
      (List.mem_cons_self _ _)
      (by
        intro p hp
        rcases List.mem_cons.mp hp with rfl | hp
        · exact ⟨"lb", rfl⟩
        rcases List.mem_cons.mp hp with rfl | hp
        · exact ⟨"loaf", rfl⟩
        · simp at hp),
    c5_scan_custom_items (AppState.mk [] [] [] [] []) "Bakery Extras" "Zucchini Bread" "loaf"
      [("Apples", JVal.str "lb"), ("Zucchini Bread", JVal.str "loaf")] (by decide)
      (List.mem_cons_of_mem _ (List.mem_cons_self _ _))
      (by
        intro p hp
        rcases List.mem_cons.mp hp with rfl | hp
        · exact ⟨"lb", rfl⟩
        rcases List.mem_cons.mp hp with rfl | hp
        · exact ⟨"loaf", rfl⟩
        · simp at hp)⟩

/-! ## Claim C6 -/

theorem scanPrefsLoop_total (entries : List (String × JVal)) :
    ∀ prefs, (∀ q ∈ entries, prefRecordOK q.2 = true → (decodeRecord q.2).isSome) →
      ∃ p', scanPrefsLoop prefs entries = .ok p' := by
  induction entries with
  | nil => exact fun prefs _ => ⟨prefs, rfl⟩
  | cons q rest ih =>
    intro prefs hdec
    obtain ⟨n, record⟩ := q
    have hdecr := fun p hp => hdec p (List.mem_cons_of_mem _ hp)
    by_cases hok : prefRecordOK record = true
    · have hsome := hdec (n, record) (List.mem_cons_self _ _) hok
      obtain ⟨r, hr⟩ := Option.isSome_iff_exists.mp hsome
      obtain ⟨p', hp'⟩ := ih (dinsert prefs n r) hdecr
      refine ⟨p', ?_⟩
      simp only [scanPrefsLoop]
      rw [if_pos hok, hr]
      exact hp'
    · obtain ⟨p', hp'⟩ := ih prefs hdecr
      refine ⟨p', ?_⟩
      simp only [scanPrefsLoop]
      rw [if_neg hok]
      exact hp'

theorem scanPrefsLoop_preserve (entries : List (String × JVal)) (item : String) :
    ∀ prefs p', item ∉ entries.map Prod.fst → scanPrefsLoop prefs entries = .ok p' →
      dlookup p' item = dlookup prefs item := by
  induction entries with
  | nil =>
    intro prefs p' _ h
    injection h with h
    rw [h]
  | cons q rest ih =>
    intro prefs p' hni h
    obtain ⟨n, record⟩ := q
    rw [List.map_cons] at hni
    have hnn : n ≠ item := fun he => hni (by simp [he])
    have hrest : item ∉ rest.map Prod.fst := fun hr => hni (List.mem_cons_of_mem _ hr)
    simp only [scanPrefsLoop] at h
    by_cases hok : prefRecordOK record = true
    · rw [if_pos hok] at h
      cases hr : decodeRecord record with
      | some r =>
        rw [hr] at h
        rw [ih (dinsert prefs n r) p' hrest h]
        exact dlookup_dinsert_ne prefs n item r (Ne.symm hnn)
      | none =>
        rw [hr] at h
        exact LoopResult.noConfusion h
    · rw [if_neg hok] at h
      exact ih prefs p' hrest h

theorem scanPrefsLoop_lookup (entries : List (String × JVal)) (item : String) (record : JVal) :
    ∀ prefs, (entries.map Prod.fst).Nodup → (item, record) ∈ entries →
      (∀ q ∈ entries, prefRecordOK q.2 = true → (decodeRecord q.2).isSome) →
      ∃ p', scanPrefsLoop prefs entries = .ok p' ∧
        (prefRecordOK record = true → dlookup p' item = decodeRecord record) ∧
        (prefRecordOK record = false → dlookup p' item = dlookup prefs item) := by
  induction entries with
  | nil =>
    intro prefs _ hmem _
    simp at hmem
  | cons q rest ih =>
    intro prefs hnd hmem hdec
    obtain ⟨n, v⟩ := q
    rw [List.map_cons] at hnd
    have hcons := List.nodup_cons.mp hnd
    have hnn := hcons.1
    have hndr := hcons.2
    have hdecr := fun p hp => hdec p (List.mem_cons_of_mem _ hp)
    rcases List.mem_cons.mp hmem with heq | hmem'
    · injection heq with h1 h2
      subst h1
      subst h2
      by_cases hok : prefRecordOK record = true
      · have hsome := hdec (item, record) (List.mem_cons_self _ _) hok
        obtain ⟨r, hr⟩ := Option.isSome_iff_exists.mp hsome
        obtain ⟨p', hp'⟩ := scanPrefsLoop_total rest (dinsert prefs item r) hdecr
        refine ⟨p', ?_, ?_, ?_⟩
        · simp only [scanPrefsLoop]
          rw [if_pos hok, hr]
          exact hp'
        · intro _
          rw [scanPrefsLoop_preserve rest item _ p' hnn hp', dlookup_dinsert_self, hr]
        · intro hf
          rw [hok] at hf
          cases hf
      · obtain ⟨p', hp'⟩ := scanPrefsLoop_total rest prefs hdecr
        refine ⟨p', ?_, ?_, ?_⟩
        · simp only [scanPrefsLoop]
          rw [if_neg hok]
          exact hp'
        · intro ht
          exact absurd ht hok
        · intro _
          exact scanPrefsLoop_preserve rest item _ p' hnn hp'
    · have hname_in : item ∈ rest.map Prod.fst :=
        List.mem_map.mpr ⟨(item, record), hmem', rfl⟩
      have hne : n ≠ item := fun he => hnn (he ▸ hname_in)
      by_cases hok : prefRecordOK v = true
      · have hsome := hdec (n, v) (List.mem_cons_self _ _) hok
        obtain ⟨r, hr⟩ := Option.isSome_iff_exists.mp hsome
        obtain ⟨p', hp', hp1, hp2⟩ := ih (dinsert prefs n r) hndr hmem' hdecr
        refine ⟨p', ?_, hp1, ?_⟩
        · simp only [scanPrefsLoop]
          rw [if_pos hok, hr]
          exact hp'
        · intro hf
          rw [hp2 hf]
          exact dlookup_dinsert_ne prefs n item r (Ne.symm hne)
      · obtain ⟨p', hp', hp1, hp2⟩ := ih prefs hndr hmem' hdecr
        refine ⟨p', ?_, hp1, hp2⟩
        simp only [scanPrefsLoop]
        rw [if_neg hok]
        exact hp'

/-- Evaluation of the preferences section on a one-key payload holding an
object. -/
theorem scanSectionPrefs_obj (entries : List (String × JVal)) (s : AppState) :
    scanSectionPrefs (.obj [("preferences", .obj entries)]) s =
      (match scanPrefsLoop s.item_preferences entries with
       | .ok p => .ok { s with item_preferences := p }
       | .err e p => .error (errOutcome e { s with item_preferences := p })
       | .outOfModel p => .error (.illTyped { s with item_preferences := p })) := rfl

/-- A merge-mode payload whose only key is preferences skips the
custom_brands section. -/
theorem scanSectionBrands_only_prefs (v : JVal) (s : AppState) :
    scanSectionBrands (.obj [("preferences", v)]) s = .ok s := rfl

/-- A merge-mode payload whose only key is preferences skips the custom_items
section. -/
theorem scanSectionItems_only_prefs (v : JVal) (s : AppState) :
    scanSectionItems (.obj [("preferences", v)]) s = .ok s := rfl

/-- C6: in a merge-mode import, an imported preferences pair overwrites (or
creates) the item's in-memory preference exactly when its record is a mapping
containing both a "unit" and a "brand" field (prefRecordOK); any other record
shape leaves that item's preference untouched and the import still succeeds.
Stated for a payload with one preferences section whose item names are
distinct and whose passing records are string-valued. -/
theorem c6_scan_preferences (s : AppState) (entries : List (String × JVal))
    (item : String) (record : JVal)
    (hnd : (entries.map Prod.fst).Nodup)
    (hmem : (item, record) ∈ entries)
    (hdec : ∀ q ∈ entries, prefRecordOK q.2 = true → (decodeRecord q.2).isSome) :
    ∃ s', applyScanImport (some (.obj [("preferences", .obj entries)])) s = .ok s' ∧
      (prefRecordOK record = true → dlookup s'.item_preferences item = decodeRecord record) ∧
      (prefRecordOK record = false →
        dlookup s'.item_preferences item = dlookup s.item_preferences item) := by
  obtain ⟨p', hrun, h1, h2⟩ :=
    scanPrefsLoop_lookup entries item record s.item_preferences hnd hmem hdec
  refine ⟨{ s with item_preferences := p' }, ?_, h1, h2⟩
  simp only [applyScanImport, scanSectionPrefs_obj, hrun, scanSectionBrands_only_prefs,
    scanSectionItems_only_prefs]

/-- Witness for C6 at a concrete merge-mode import: the complete record for
"Apples" is applied, the "Bananas" record lacking a brand field and the
non-mapping "Cherries" record are skipped. -/
theorem c6_scan_preferences_witness :
    (prefRecordOK (.obj [("unit", JVal.str "lb"), ("brand", JVal.str "Fuji")]) = true ∧
      prefRecordOK (.obj [("unit", JVal.str "bunch")]) = false ∧
      prefRecordOK (JVal.str "nope") = false) ∧
    (∃ s', applyScanImport (some (.obj [("preferences", .obj
        [("Apples", .obj [("unit", JVal.str "lb"), ("brand", JVal.str "Fuji")]),
         ("Bananas", .obj [("unit", JVal.str "bunch")]),
         ("Cherries", JVal.str "nope")])]))
        (AppState.mk [] [] [] [] []) = .ok s' ∧
      (prefRecordOK (.obj [("unit", JVal.str "lb"), ("brand", JVal.str "Fuji")]) = true →
        dlookup s'.item_preferences "Apples" =
          decodeRecord (.obj [("unit", JVal.str "lb"), ("brand", JVal.str "Fuji")])) ∧
      (prefRecordOK (.obj [("unit", JVal.str "lb"), ("brand", JVal.str "Fuji")]) = false →
        dlookup s'.item_preferences "Apples" =
          dlookup (AppState.mk [] [] [] [] []).item_preferences "Apples")) ∧
    (∃ s', applyScanImport (some (.obj [("preferences", .obj
        [("Apples", .obj [("unit", JVal.str "lb"), ("brand", JVal.str "Fuji")]),
         ("Bananas", .obj [("unit", JVal.str "bunch")]),
         ("Cherries", JVal.str "nope")])]))
        (AppState.mk [] [] [] [] []) = .ok s' ∧
      (prefRecordOK (.obj [("unit", JVal.str "bunch")]) = true →
        dlookup s'.item_preferences "Bananas" =
          decodeRecord (.obj [("unit", JVal.str "bunch")])) ∧
      (prefRecordOK (.obj [("unit", JVal.str "bunch")]) = false →
        dlookup s'.item_preferences "Bananas" =
          dlookup (AppState.mk [] [] [] [] []).item_preferences "Bananas")) :=
  ⟨⟨by decide, by decide, by decide⟩,
    c6_scan_preferences (AppState.mk [] [] [] [] [])
      [("Apples", .obj [("unit", JVal.str "lb"), ("brand", JVal.str "Fuji")]),
       ("Bananas", .obj [("unit", JVal.str "bunch")]),
       ("Cherries", JVal.str "nope")]
      "Apples" (.obj [("unit", JVal.str "lb"), ("brand", JVal.str "Fuji")])
      (by decide) (List.mem_cons_self _ _)
      (by
        intro q hq
        rcases List.mem_cons.mp hq with rfl | hq
        · intro _; decide
        rcases List.mem_cons.mp hq with rfl | hq
        · intro h; exact absurd h (by decide)
        rcases List.mem_cons.mp hq with rfl | hq
        · intro h; exact absurd h (by decide)
        · simp at hq),
    c6_scan_preferences (AppState.mk [] [] [] [] [])
      [("Apples", .obj [("unit", JVal.str "lb"), ("brand", JVal.str "Fuji")]),
       ("Bananas", .obj [("unit", JVal.str "bunch")]),
       ("Cherries", JVal.str "nope")]
      "Bananas" (.obj [("unit", JVal.str "bunch")])
      (by decide) (List.mem_cons_of_mem _ (List.mem_cons_self _ _))
      (by
        intro q hq
        rcases List.mem_cons.mp hq with rfl | hq
        · intro _; decide
        rcases List.mem_cons.mp hq with rfl | hq
        · intro h; exact absurd h (by decide)
        rcases List.mem_cons.mp hq with rfl | hq
        · intro h; exact absurd h (by decide)
        · simp at hq)⟩

/-! ## Claim C10 -/

/-- C10: merge-mode import creates the imported category key before filtering
its items, so a category all of whose imported items collide with the catalog
is left behind as an empty mapping — in contrast to deleteCustomItem, which
removes a category key once its mapping becomes empty. -/
theorem c10_empty_category_residue :
    applyScanImport
        (some (.obj [("custom_items", .obj [("NewCat", .obj [("Apples", JVal.str "lb")])])]))
        (AppState.mk [] [] [] [] []) =
      .ok (AppState.mk [] [] [] [("NewCat", [])] []) ∧
    deleteCustomItem "NewCat" "Widget"
        (AppState.mk [] [] [] [("NewCat", [("Widget", "each")])] []) =
      AppState.mk [] [] [] [] [] :=
  ⟨rfl, rfl⟩

/-! ## Claim C8 -/

/-- Stable insertion of x after every element y with le y x. -/
def stableInsert {α : Type} (le : α → α → Bool) (x : α) : List α → List α
  | [] => [x]
  | y :: ys => if le y x then y :: stableInsert le x ys else x :: y :: ys

/-- Stable sort modelling Python's sorted(..., key=...): Python's sort is
stable, and every stable sort produces the same output, here realised by
left-to-right insertion. -/
def stableSort {α : Type} (le : α → α → Bool) (l : List α) : List α :=
  l.foldl (fun acc x => stableInsert le x acc) []

/-- Source function get_item_category: the first MASTER_LIST category whose
items contain the name, else the first such custom category, else "Other". -/
def get_item_category (custom_items : ItemsMap) (item_name : String) : String :=
  match MASTER_LIST.findSome?
      (fun p => if (dlookup p.2 item_name).isSome then some p.1 else none) with
  | some cat => cat
  | none =>
    match custom_items.findSome?
        (fun p => if (dlookup p.2 item_name).isSome then some p.1 else none) with
    | some cat => cat
    | none => "Other"

/-- One step of the export's grouping loop: append the entry to its category
bucket, creating the bucket when absent. -/
def addToBucket (bs : List (String × List CartEntry)) (c : String) (e : CartEntry) :
    List (String × List CartEntry) :=
  dinsert bs c (((dlookup bs c).getD []) ++ [e])

/-- The export's items_by_category mapping, built over the cart in order. -/
def items_by_category (ci : ItemsMap) (cart : List CartEntry) :
    List (String × List CartEntry) :=
  cart.foldl (fun bs e => addToBucket bs (get_item_category ci e.item) e) []

/-- The export's sort key: position in MASTER_LIST category order (with
"Other" last), 999 for anything else. -/
def categorySortKey (c : String) : Nat :=
  match (MASTER_LIST.map (fun p => p.1) ++ ["Other"]).indexOf? c with
  | some i => i
  | none => 999

/-- The export's sorted_categories: the bucket keys stably sorted by
categorySortKey. -/
def sorted_categories (bs : List (String × List CartEntry)) : List String :=
  stableSort (fun a b => categorySortKey a ≤ categorySortKey b) (bs.map Prod.fst)

/-- The checklist label the export emits for one cart entry. -/
def entry_label (e : CartEntry) : String :=
  "        <label class=\"item\">\n            <input type=\"checkbox\"><span class=\"item-name\">"
    ++ e.item ++ (if e.brand ≠ "" then " (" ++ e.brand ++ ")" else "") ++ " - "
    ++ toString e.qty ++ " " ++ e.unit ++ "</span>\n        </label>"

/-- The category heading line the export emits, with the display name
shortened as in the source. -/
def category_div (cat : String) : String :=
  "        <div class=\"category\">"
    ++ ((cat.replace "Produce - " "").replace "Pantry - " "").replace "Meat & Seafood - " ""
    ++ "</div>"

/-- The export document head, split around the current date exactly as the
source concatenates it. -/
def export_header (dateStr : String) : String :=
  "<!DOCTYPE html>\n<html>\n<head>\n    <meta charset=\"UTF-8\">\n    <meta name=\"viewport\" content=\"width=device-width, initial-scale=1.0\">\n    <title>Grocery List</title>\n    <style>\n        body \x7b\n            font-family: \x27Segoe UI\x27, Arial, sans-serif;\n            max-width: 600px;\n            margin: 0 auto;\n            padding: 12px;\n            background: #f5f5f5;\n        \x7d\n        .container \x7b\n            background: white;\n            padding: 20px;\n            border-radius: 8px;\n            box-shadow: 0 2px 6px rgba(0,0,0,0.1);\n        \x7d\n        .header \x7b\n            text-align: center;\n            border-bottom: 2px solid #2e7d32;\n            padding-bottom: 12px;\n            margin-bottom: 20px;\n        \x7d\n        .title \x7b\n            font-size: 24px;\n            font-weight: bold;\n            color: #2e7d32;\n            margin: 0;\n        \x7d\n        .date \x7b\n            font-size: 14px;\n            color: #666;\n            margin-top: 6px;\n        \x7d\n        .category \x7b\n            font-size: 16px;\n            font-weight: bold;\n            color: #1565c0;\n            margin-top: 16px;\n            margin-bottom: 8px;\n            padding-bottom: 5px;\n            border-bottom: 1px solid #1565c0;\n        \x7d\n        .item \x7b\n            font-size: 15px;\n            padding: 10px 8px;\n            border-bottom: 1px solid #eee;\n            display: block;\n        \x7d\n        .item:has(input:checked) \x7b\n            opacity: 0.4;\n            text-decoration: line-through;\n        \x7d\n        input[type=\"checkbox\"] \x7b\n            width: 26px;\n            height: 26px;\n            margin-right: 10px;\n            vertical-align: middle;\n        \x7d\n        .item-name \x7b\n            vertical-align: middle;\n        \x7d\n        .footer \x7b\n            text-align: center;\n            margin-top: 25px;\n            padding-top: 12px;\n            border-top: 2px solid #2e7d32;\n            font-size: 14px;\n            color: #666;\n        \x7d\n        @media print \x7b\n            body \x7b background: white; padding: 0; \x7d\n            .container \x7b box-shadow: none; padding: 20px; \x7d\n            .item:hover \x7b background-color: transparent; \x7d\n        \x7d\n    </style>\n    <script>\n        document.addEventListener(\x27DOMContentLoaded\x27, function() \x7b\n            const checkboxes = document.querySelectorAll(\x27input[type=\"checkbox\"]\x27);\n            const countSpan = document.getElementById(\x27item-count\x27);\n            const totalItems = checkboxes.length;\n\n            function updateCount() \x7b\n                const checked = document.querySelectorAll(\x27input[type=\"checkbox\"]:checked\x27).length;\n                const remaining = totalItems - checked;\n                countSpan.textContent = remaining + \x27 item\x27 + (remaining !== 1 ? \x27s\x27 : \x27\x27) + \x27 remaining\x27;\n            \x7d\n\n            checkboxes.forEach(function(cb) \x7b\n                cb.addEventListener(\x27change\x27, updateCount);\n            \x7d);\n        \x7d);\n    </script>\n</head>\n<body>\n    <div class=\"container\">\n        <div class=\"header\">\n            <div class=\"title\">üõí Grocery List</div>\n            <div class=\"date\">"
    ++ dateStr ++ "</div>\n        </div>\n"

/-- The export document footer with the item counter. -/
def export_footer (total_items : Nat) : String :=
  "\n        <div class=\"footer\">\n            <span id=\"item-count\">"
    ++ toString total_items ++ " item" ++ (if total_items ≠ 1 then "s" else "")
    ++ " remaining</span>\n        </div>\n    </div>\n</body>\n</html>"

/-- The export body: for each category in sorted order, its heading followed
by one label per entry of its bucket. -/
def export_body_lines (ci : ItemsMap) (cart : List CartEntry) : List String :=
  ((sorted_categories (items_by_category ci cart)).map (fun cat =>
    category_div cat ::
      ((dlookup (items_by_category ci cart) cat).getD []).map entry_label)).flatten

/-- The complete Export List download: header, body lines and footer joined
with newlines, as the source's "\n".join(html_lines). -/
def export_html (ci : ItemsMap) (cart : List CartEntry) (dateStr : String) : String :=
  String.intercalate "\n" (export_header dateStr :: (export_body_lines ci cart
    ++ [export_footer cart.length]))

/-- The label lines only, in export order. -/
def exportLabels (ci : ItemsMap) (cart : List CartEntry) : List String :=
  ((sorted_categories (items_by_category ci cart)).map (fun cat =>
    ((dlookup (items_by_category ci cart) cat).getD []).map entry_label)).flatten

/-- The cart entries in the order the export walks them. -/
def flattenedExport (ci : ItemsMap) (cart : List CartEntry) : List CartEntry :=
  ((sorted_categories (items_by_category ci cart)).map (fun cat =>
    (dlookup (items_by_category ci cart) cat).getD [])).flatten

/-- Modelled from the spec (§6, plain-text export): the newline-separated
lines qty unit item[ - brand], one per cart entry, in cart order. -/
def plainTextExportSpec (cart : List CartEntry) : String :=
  String.intercalate "\n" (cart.map (fun e =>
    toString e.qty ++ " " ++ e.unit ++ " " ++ e.item ++
      (if e.brand ≠ "" then " - " ++ e.brand else "")))


theorem stableInsert_perm {α : Type} (le : α → α → Bool) (x : α) (l : List α) :
    (stableInsert le x l).Perm (x :: l) := by
  induction l with
  | nil => exact List.Perm.refl _
  | cons y ys ih =>
    simp only [stableInsert]
    by_cases h : le y x = true
    · rw [if_pos h]
      exact (ih.cons y).trans (List.Perm.swap x y ys)
    · rw [if_neg h]

theorem stableSort_perm {α : Type} (le : α → α → Bool) (l : List α) :
    (stableSort le l).Perm l := by
  have h : ∀ acc : List α,
      (l.foldl (fun a x => stableInsert le x a) acc).Perm (acc ++ l) := by
    induction l with
    | nil =>
      intro acc
      simp
    | cons x xs ih =>
      intro acc
      simp only [List.foldl_cons]
      refine (ih (stableInsert le x acc)).trans ?_
      refine ((stableInsert_perm le x acc).append_right xs).trans ?_
      exact List.perm_middle.symm
  simpa [stableSort] using h []

theorem dlookup_none_iff {α : Type} (d : List (String × α)) (k : String) :
    dlookup d k = none ↔ k ∉ d.map Prod.fst := by
  induction d with
  | nil => simp [dlookup]
  | cons p rest ih =>
    obtain ⟨k0, v0⟩ := p
    by_cases h : k0 = k
    · subst h
      simp [dlookup]
    · simp only [dlookup, if_neg h, List.map_cons, List.mem_cons]
      rw [ih]
      constructor
      · intro hn hk
        rcases hk with hk | hk
        · exact h hk.symm
        · exact hn hk
      · intro hn hk
        exact hn (Or.inr hk)

theorem map_fst_dinsert {α : Type} (d : List (String × α)) (k : String) (v : α) :
    (dinsert d k v).map Prod.fst =
      if (dlookup d k).isSome then d.map Prod.fst else d.map Prod.fst ++ [k] := by
  induction d with
  | nil => simp [dinsert, dlookup]
  | cons p rest ih =>
    obtain ⟨k0, v0⟩ := p
    by_cases h : k0 = k
    · subst h
      simp [dinsert, dlookup]
    · simp only [dinsert, if_neg h, dlookup, List.map_cons, ih]
      by_cases h2 : (dlookup rest k).isSome = true
      · rw [if_pos h2, if_pos h2]
      · rw [if_neg h2, if_neg h2]
        rfl

theorem dinsert_append_of_none {α : Type} (d : List (String × α)) (k : String) (v : α)
    (h : dlookup d k = none) : dinsert d k v = d ++ [(k, v)] := by
  induction d with
  | nil => simp [dinsert]
  | cons p rest ih =>
    obtain ⟨k0, v0⟩ := p
    by_cases hk : k0 = k
    · subst hk
      simp [dlookup] at h
    · simp only [dlookup, if_neg hk] at h
      simp [dinsert, hk, ih h]

theorem buckets_keys_nodup (ci : ItemsMap) (cart : List CartEntry) :
    ∀ bs : List (String × List CartEntry), (bs.map Prod.fst).Nodup →
      ((cart.foldl (fun bs e => addToBucket bs (get_item_category ci e.item) e) bs).map
        Prod.fst).Nodup := by
  induction cart with
  | nil => exact fun bs h => h
  | cons e rest ih =>
    intro bs h
    simp only [List.foldl_cons]
    apply ih
    unfold addToBucket
    rw [map_fst_dinsert]
    by_cases h2 : (dlookup bs (get_item_category ci e.item)).isSome = true
    · rw [if_pos h2]
      exact h
    · rw [if_neg h2]
      have hk : get_item_category ci e.item ∉ bs.map Prod.fst := by
        rw [← dlookup_none_iff]
        cases hq : dlookup bs (get_item_category ci e.item) with
        | none => rfl
        | some w =>
          rw [hq] at h2
          exact absurd rfl h2
      exact nodup_append_singleton _ _ h hk

theorem map_lookup_keys {α : Type} (bs : List (String × α)) (dflt : α) :
    (bs.map Prod.fst).Nodup →
      (bs.map Prod.fst).map (fun c => (dlookup bs c).getD dflt) = bs.map Prod.snd := by
  induction bs with
  | nil => intro _; simp
  | cons p rest ih =>
    intro h
    obtain ⟨k0, v0⟩ := p
    rw [List.map_cons] at h
    have hcons := List.nodup_cons.mp h
    simp only [List.map_cons]
    congr 1
    · simp [dlookup]
    · have hpt : ∀ c ∈ rest.map Prod.fst,
          (dlookup ((k0, v0) :: rest) c).getD dflt = (dlookup rest c).getD dflt := by
        intro c hc
        have hne : k0 ≠ c := fun he => hcons.1 (he ▸ hc)
        simp [dlookup, hne]
      rw [List.map_congr_left hpt]
      exact ih hcons.2

theorem flatten_dinsert_lookup (bs : List (String × List CartEntry)) (c : String)
    (e : CartEntry) (v : List CartEntry) (h : dlookup bs c = some v) :
    ((dinsert bs c (v ++ [e])).map Prod.snd).flatten.Perm
      ((bs.map Prod.snd).flatten ++ [e]) := by
  induction bs with
  | nil => simp [dlookup] at h
  | cons p rest ih =>
    obtain ⟨k0, v0⟩ := p
    by_cases hk : k0 = c
    · subst hk
      simp only [dlookup, eq_self_iff_true, if_true, Option.some.injEq] at h
      subst h
      simp only [dinsert, eq_self_iff_true, if_true, List.map_cons, List.flatten_cons]
      rw [List.append_assoc, List.append_assoc]
      exact List.Perm.append_left v0 List.perm_append_comm
    · simp only [dlookup, if_neg hk] at h
      simp only [dinsert, if_neg hk, List.map_cons, List.flatten_cons]
      rw [List.append_assoc]
      exact List.Perm.append_left v0 (ih h)

theorem addToBucket_flatten (bs : List (String × List CartEntry)) (c : String)
    (e : CartEntry) :
    ((addToBucket bs c e).map Prod.snd).flatten.Perm ((bs.map Prod.snd).flatten ++ [e]) := by
  unfold addToBucket
  cases h : dlookup bs c with
  | some v =>
    exact flatten_dinsert_lookup bs c e v h
  | none =>
    rw [dinsert_append_of_none bs c _ h]
    simp

theorem items_by_category_flatten (ci : ItemsMap) (cart : List CartEntry) :
    ((items_by_category ci cart).map Prod.snd).flatten.Perm cart := by
  have h : ∀ bs : List (String × List CartEntry),
      ((cart.foldl (fun bs e => addToBucket bs (get_item_category ci e.item) e) bs).map
        Prod.snd).flatten.Perm ((bs.map Prod.snd).flatten ++ cart) := by
    induction cart with
    | nil =>
      intro bs
      simp
    | cons e rest ih =>
      intro bs
      simp only [List.foldl_cons]
      refine (ih (addToBucket bs (get_item_category ci e.item) e)).trans ?_
      refine ((addToBucket_flatten bs _ e).append_right rest).trans ?_
      rw [List.append_assoc]
      exact List.Perm.refl _
  simpa [items_by_category] using h []

/-- C8 counterexample: on the one-entry cart [1 lb Apples] the Export List
download is the HTML checklist document, not the plain-text
"qty unit item[ - brand]" lines the claim describes. -/
theorem c8_plain_text_counterexample :
    export_html [] [⟨"Apples", 1, "lb", ""⟩] "October 12, 2025" ≠
      plainTextExportSpec [⟨"Apples", 1, "lb", ""⟩] := by decide

/-- C8 amended: the export is an HTML document; walking its sorted category
buckets visits a permutation of the cart (so it emits exactly one checklist
label per cart entry, grouped by category in catalog order rather than cart
order), the label lines are exactly the per-entry labels of that walk, and a
label carries the parenthesised brand exactly when the entry's brand is
non-empty. -/
theorem c8_export_structure (ci : ItemsMap) (cart : List CartEntry) :
    (flattenedExport ci cart).Perm cart ∧
    exportLabels ci cart = (flattenedExport ci cart).map entry_label ∧
    (∀ e : CartEntry, e.brand = "" →
      entry_label e =
        "        <label class=\"item\">\n            <input type=\"checkbox\"><span class=\"item-name\">"
          ++ e.item ++ " - " ++ toString e.qty ++ " " ++ e.unit
          ++ "</span>\n        </label>") ∧
    (∀ e : CartEntry, e.brand ≠ "" →
      entry_label e =
        "        <label class=\"item\">\n            <input type=\"checkbox\"><span class=\"item-name\">"
          ++ e.item ++ (" (" ++ e.brand ++ ")") ++ " - " ++ toString e.qty ++ " " ++ e.unit
          ++ "</span>\n        </label>") := by
  refine ⟨?_, ?_, ?_, ?_⟩
  · unfold flattenedExport sorted_categories
    have hnd : ((items_by_category ci cart).map Prod.fst).Nodup :=
      buckets_keys_nodup ci cart [] (by simp)
    have h1 := (stableSort_perm (fun a b => decide (categorySortKey a ≤ categorySortKey b))
      ((items_by_category ci cart).map Prod.fst)).map
      (fun c => (dlookup (items_by_category ci cart) c).getD [])
    refine h1.flatten.trans ?_
    rw [map_lookup_keys _ [] hnd]
    exact items_by_category_flatten ci cart
  · unfold exportLabels flattenedExport
    rw [List.map_flatten, List.map_map]
    rfl
  · intro e h
    simp [entry_label, h]
  · intro e h
    simp [entry_label, h]

/-- Witness for the amended C8 at concrete entries: the brand-less Apples
label has no parenthesised brand, the branded Whole Milk label has one, and on
a two-entry cart the export walk is a permutation of the cart. -/
theorem c8_export_structure_witness :
    (CartEntry.mk "Apples" 1 "lb" "").brand = "" ∧
    entry_label (CartEntry.mk "Apples" 1 "lb" "") =
      "        <label class=\"item\">\n            <input type=\"checkbox\"><span class=\"item-name\">"
        ++ (CartEntry.mk "Apples" 1 "lb" "").item ++ " - "
        ++ toString (CartEntry.mk "Apples" 1 "lb" "").qty ++ " "
        ++ (CartEntry.mk "Apples" 1 "lb" "").unit ++ "</span>\n        </label>" ∧
    (CartEntry.mk "Whole Milk" 2 "gallon" "Fairlife").brand ≠ "" ∧
    entry_label (CartEntry.mk "Whole Milk" 2 "gallon" "Fairlife") =
      "        <label class=\"item\">\n            <input type=\"checkbox\"><span class=\"item-name\">"
        ++ (CartEntry.mk "Whole Milk" 2 "gallon" "Fairlife").item
        ++ (" (" ++ (CartEntry.mk "Whole Milk" 2 "gallon" "Fairlife").brand ++ ")") ++ " - "
        ++ toString (CartEntry.mk "Whole Milk" 2 "gallon" "Fairlife").qty ++ " "
        ++ (CartEntry.mk "Whole Milk" 2 "gallon" "Fairlife").unit
        ++ "</span>\n        </label>" ∧
    (flattenedExport []
        [CartEntry.mk "Whole Milk" 2 "gallon" "Fairlife", CartEntry.mk "Apples" 1 "lb" ""]).Perm
      [CartEntry.mk "Whole Milk" 2 "gallon" "Fairlife", CartEntry.mk "Apples" 1 "lb" ""] :=
  ⟨by decide,
    (c8_export_structure [] []).2.2.1 (CartEntry.mk "Apples" 1 "lb" "") (by decide),
    by decide,
    (c8_export_structure [] []).2.2.2 (CartEntry.mk "Whole Milk" 2 "gallon" "Fairlife")
      (by decide),
    (c8_export_structure []
        [CartEntry.mk "Whole Milk" 2 "gallon" "Fairlife", CartEntry.mk "Apples" 1 "lb" ""]).1⟩

end Grocery
